import Mathlib

/-!
Verification development for the distortos STM32 SPIv2 SPI master low-level
drivers (interrupt-based `ChipSpiMasterLowLevel` and DMA-based
`SpiMasterLowLevelDmaBased`) and the DMAv2 `DmaChannel::UniqueHandle`.

The C++ sources are shallowly embedded: each driver object becomes a Lean
structure holding its fields together with the relevant hardware registers,
each member function becomes a pure function from the old state (plus
arguments) to the new state (plus the returned status).  Machine integers are
modelled as `Nat`, with an explicit `% 2^32` where 32-bit overflow matters.
Registers are 16-bit values manipulated with the same masks as the source.

The completion callback (`SpiMasterBase::transferCompleteEvent`) is modelled
as data: a handler returns `Option Nat` - `some bytesTransferred` exactly when
the source invokes the callback, and the state returned alongside it is the
driver state at the instant the callback runs (the callback is the last
statement of every completion path in the source).
-/

namespace Distortos

/-! ## Error codes (values as in newlib / POSIX; only distinctness matters) -/

def EBADF : Nat := 9
def EBUSY : Nat := 16
def EINVAL : Nat := 22
def ENOTSUP : Nat := 134

/-! ## SPI register bits (STM32 SPIv2, from the CMSIS device header, which is
not part of the sources; values are the standard hardware ones) -/

def SPI_CR1_CPHA : Nat := 1 <<< 0
def SPI_CR1_CPOL : Nat := 1 <<< 1
def SPI_CR1_MSTR : Nat := 1 <<< 2
def SPI_CR1_BR_Pos : Nat := 3
def SPI_CR1_BR : Nat := 7 <<< 3
def SPI_CR1_SPE : Nat := 1 <<< 6
def SPI_CR1_LSBFIRST_Pos : Nat := 7
def SPI_CR1_LSBFIRST : Nat := 1 <<< 7
def SPI_CR1_SSI : Nat := 1 <<< 8
def SPI_CR1_SSM : Nat := 1 <<< 9

def SPI_CR2_RXDMAEN : Nat := 1 <<< 0
def SPI_CR2_TXDMAEN : Nat := 1 <<< 1
def SPI_CR2_ERRIE : Nat := 1 <<< 5
def SPI_CR2_RXNEIE : Nat := 1 <<< 6
def SPI_CR2_TXEIE : Nat := 1 <<< 7
def SPI_CR2_DS_Pos : Nat := 8
def SPI_CR2_DS : Nat := 0xF <<< 8
def SPI_CR2_FRXTH_Pos : Nat := 12
def SPI_CR2_FRXTH : Nat := 1 <<< 12

def SPI_SR_RXNE : Nat := 1 <<< 0
def SPI_SR_TXE : Nat := 1 <<< 1
def SPI_SR_OVR : Nat := 1 <<< 6
def SPI_SR_BSY : Nat := 1 <<< 7

/-- Complement of a mask within a 16-bit register, as produced by the C++
`&= ~mask` on a 16-bit register field. -/
def not16 (m : Nat) : Nat := 0xFFFF ^^^ m

/-- Wrapping 32-bit subtraction, the semantics of `a - b` on `uint32_t` /
32-bit `size_t`. -/
def sub32 (a b : Nat) : Nat := (2 ^ 32 + a % 2 ^ 32 - b % 2 ^ 32) % 2 ^ 32

/-- Update of one byte of a caller-supplied buffer, modelled as a list of
bytes: `buffer[i] = v`. Out-of-range writes leave the list unchanged. -/
def listSet : List Nat → Nat → Nat → List Nat
  | [], _, _ => []
  | _ :: xs, 0, v => v :: xs
  | x :: xs, i + 1, v => x :: listSet xs i v

/-! ## `devices::SpiMode` -/

/-- SPI clock polarity/phase mode (`distortos::devices::SpiMode`). -/
inductive SpiMode where
  | cpol0cpha0
  | cpol0cpha1
  | cpol1cpha0
  | cpol1cpha1
deriving DecidableEq, Repr

/-! ## Interrupt-based driver: `ChipSpiMasterLowLevel` -/

/-- Word-length range of the driver. `ChipSpiMasterLowLevel.hpp` is not among
the sources; modelled from the spec: word length in bits is in [4..16]. -/
def minWordLength : Nat := 4

/-- See `minWordLength`. -/
def maxWordLength : Nat := 16

/-- Gets current word length of SPI peripheral from CR2
(`getWordLength` in `STM32-SPIv2-ChipSpiMasterLowLevel.cpp`). -/
def getWordLength (cr2 : Nat) : Nat := ((cr2 &&& SPI_CR2_DS) >>> SPI_CR2_DS_Pos) + 1

/-- State of a `ChipSpiMasterLowLevel` object together with the SPI registers
it drives and the caller-supplied buffers.  The source's buffer pointers
`readBuffer_` / `writeBuffer_` are modelled as presence flags plus ambient
byte lists `rxMem` / `txMem` standing for the caller's memory (the memory
outlives the driver's pointer to it). -/
structure ChipState where
  /-- value returned by `spiPeripheral_.getPeripheralFrequency()` (uint32) -/
  pf : Nat
  cr1 : Nat
  cr2 : Nat
  started_ : Bool
  dummyData_ : Nat
  /-- `spiMasterBase_` observer pointer; `some id` when non-null -/
  spiMasterBase_ : Option Nat
  /-- whether `readBuffer_` is non-null -/
  readBuffer_ : Bool
  /-- whether `writeBuffer_` is non-null -/
  writeBuffer_ : Bool
  readPosition_ : Nat
  writePosition_ : Nat
  size_ : Nat
  /-- contents of the caller's read buffer (bytes) -/
  rxMem : List Nat
  /-- contents of the caller's write buffer (bytes) -/
  txMem : List Nat
deriving DecidableEq, Repr

/-- `isStarted()`; its body is in the header which is not among the sources.
Modelled from the spec: the lifecycle flag set by `start()`. -/
def ChipState.isStarted (s : ChipState) : Bool := s.started_

/-- `isTransferInProgress()`; its body is in the header which is not among the
sources.  Modelled from the spec: BUSY exactly while an observer is
registered (the observer pointer is nulled on completion). -/
def ChipState.isTransferInProgress (s : ChipState) : Bool := s.spiMasterBase_.isSome

/-- The divider computation of `configure` (line 78):
`(peripheralFrequency + clockFrequency - 1) / clockFrequency` on `uint32_t`,
hence the explicit `% 2^32` (the `- 1` is the wrapping unsigned one, written
as `+ (2^32 - 1)` modulo `2^32`). -/
def spiDivider (pf cf : Nat) : Nat := ((pf + cf + (2 ^ 32 - 1)) % 2 ^ 32) / cf

/-- The BR bit-field computation of `configure` (line 82):
`divider <= 2 ? 0 : 31 - __builtin_clz(divider - 1)`; for the 32-bit values
involved `31 - __builtin_clz(x)` equals `Nat.log2 x`. -/
def spiBr (divider : Nat) : Nat := if divider ≤ 2 then 0 else Nat.log2 (divider - 1)

/-- `ChipSpiMasterLowLevel::configure` (lines 65-94).  Returns the new state
and the `std::pair<int, uint32_t>` result. -/
def ChipState.configure (s : ChipState) (mode : SpiMode) (clockFrequency : Nat)
    (wordLength : Nat) (lsbFirst : Bool) (dummyData : Nat) : ChipState × Nat × Nat :=
  if wordLength < minWordLength ∨ wordLength > maxWordLength then (s, EINVAL, 0)
  else if s.isStarted = false then (s, EBADF, 0)
  else if s.isTransferInProgress = true then (s, EBUSY, 0)
  else if spiDivider s.pf clockFrequency > 256 then (s, EINVAL, 0)
  else
    let br := spiBr (spiDivider s.pf clockFrequency)
    let cr1 := (s.cr1 &&& not16 (SPI_CR1_LSBFIRST ||| SPI_CR1_BR ||| SPI_CR1_CPOL ||| SPI_CR1_CPHA)) |||
        (if lsbFirst then 1 else 0) <<< SPI_CR1_LSBFIRST_Pos ||| br <<< SPI_CR1_BR_Pos |||
        (if mode = SpiMode.cpol1cpha0 ∨ mode = SpiMode.cpol1cpha1 then 1 else 0) <<< 1 |||
        (if mode = SpiMode.cpol0cpha1 ∨ mode = SpiMode.cpol1cpha1 then 1 else 0) <<< 0
    let cr2 := (s.cr2 &&& not16 (SPI_CR2_FRXTH ||| SPI_CR2_DS)) |||
        (if wordLength ≤ 8 then 1 else 0) <<< SPI_CR2_FRXTH_Pos |||
        (wordLength - 1) <<< SPI_CR2_DS_Pos
    ({ s with cr1 := cr1, cr2 := cr2, dummyData_ := dummyData }, 0,
      s.pf / 2 ^ (br + 1))

/-- `ChipSpiMasterLowLevel::start` (lines 175-186). -/
def ChipState.start (s : ChipState) : ChipState × Nat :=
  if s.isStarted = true then (s, EBADF)
  else
    ({ s with cr1 := SPI_CR1_SSM ||| SPI_CR1_SSI ||| SPI_CR1_SPE ||| SPI_CR1_BR ||| SPI_CR1_MSTR,
              cr2 := SPI_CR2_FRXTH ||| (8 - 1) <<< SPI_CR2_DS_Pos,
              started_ := true }, 0)

/-- `ChipSpiMasterLowLevel::startTransfer` (lines 188-213). -/
def ChipState.startTransfer (s : ChipState) (spiMasterBase : Nat)
    (writeBuffer readBuffer : Bool) (size : Nat) : ChipState × Nat :=
  if size = 0 then (s, EINVAL)
  else if s.isStarted = false then (s, EBADF)
  else if s.isTransferInProgress = true then (s, EBUSY)
  else if size % ((getWordLength s.cr2 + 8 - 1) / 8) ≠ 0 then (s, EINVAL)
  else
    ({ s with spiMasterBase_ := some spiMasterBase,
              readBuffer_ := readBuffer,
              writeBuffer_ := writeBuffer,
              size_ := size,
              readPosition_ := 0,
              writePosition_ := 0,
              cr2 := s.cr2 ||| (SPI_CR2_TXEIE ||| SPI_CR2_RXNEIE ||| SPI_CR2_ERRIE) }, 0)

/-- `ChipSpiMasterLowLevel::stop` (lines 215-228). -/
def ChipState.stop (s : ChipState) : ChipState × Nat :=
  if s.isStarted = false then (s, EBADF)
  else if s.isTransferInProgress = true then (s, EBUSY)
  else ({ s with cr1 := 0, cr2 := 0, started_ := false }, 0)

/-- One hardware interrupt as seen by `interruptHandler`: the value read from
the status register SR and the value the data register DR would deliver if
read (the word most recently received by the shift register). -/
structure IrqInput where
  sr : Nat
  dr : Nat
deriving DecidableEq, Repr

/-- The `done` block of `ChipSpiMasterLowLevel::interruptHandler`
(lines 158-172): disables TXE/RXNE/ERR interrupts, captures
`bytesTransfered` from `readPosition_`, clears all transfer state, nulls
the observer pointer and - last - invokes the callback.  The returned state
is the state at the instant the callback runs; `some bytesTransfered` marks
the invocation (it is `none` only if the observer pointer was already null,
where the source's `assert` would fire). -/
def ChipState.finishTransfer (s : ChipState) : ChipState × Option Nat :=
  let bytesTransfered := s.readPosition_
  let s := { s with cr2 := s.cr2 &&& not16 (SPI_CR2_TXEIE ||| SPI_CR2_RXNEIE ||| SPI_CR2_ERRIE),
                    writePosition_ := 0, readPosition_ := 0, size_ := 0,
                    writeBuffer_ := false, readBuffer_ := false }
  match s.spiMasterBase_ with
  | some _ => ({ s with spiMasterBase_ := none }, some bytesTransfered)
  | none => ({ s with spiMasterBase_ := none }, none)

/-- The overrun branch of `interruptHandler` (lines 104-113): DR and SR are
read to clear the OVR flag (no model counterpart), the TXE interrupt is
disabled, and the transfer completes if the peripheral is no longer busy. -/
def ChipState.ovrBranch (s : ChipState) (sr : Nat) : ChipState × Option Nat :=
  let s := { s with cr2 := s.cr2 &&& not16 SPI_CR2_TXEIE }
  if sr &&& SPI_SR_BSY = 0 then s.finishTransfer else (s, none)

/-- The buffer-store part of the RXNE branch (lines 116-127):
`readBuffer[readPosition++] = word` (a uint8 store, truncating), for word
lengths above 8 bits also `readBuffer[readPosition++] = word >> 8`; with a
null readBuffer the word is discarded and readPosition advances by the data
size. -/
def ChipState.rxStore (s : ChipState) (word : Nat) : ChipState :=
  let wordLength := getWordLength s.cr2
  if s.readBuffer_ then
    if wordLength > 8 then
      { s with rxMem := listSet (listSet s.rxMem s.readPosition_ (word % 2 ^ 8))
                 (s.readPosition_ + 1) (word >>> 8),
               readPosition_ := s.readPosition_ + 2 }
    else
      { s with rxMem := listSet s.rxMem s.readPosition_ (word % 2 ^ 8),
               readPosition_ := s.readPosition_ + 1 }
  else { s with readPosition_ := s.readPosition_ + (wordLength + 8 - 1) / 8 }

/-- The RXNE branch of `interruptHandler` (lines 114-132): the received word
is stored via `rxStore`; the transfer completes when readPosition reaches the
size, otherwise the TXE interrupt is enabled. -/
def ChipState.rxneBranch (s : ChipState) (dr : Nat) : ChipState × Option Nat :=
  let wordLength := getWordLength s.cr2
  let word := if wordLength ≤ 8 then dr % 2 ^ 8 else dr % 2 ^ 16
  let s := s.rxStore word
  if s.readPosition_ = s.size_ then s.finishTransfer
  else ({ s with cr2 := s.cr2 ||| SPI_CR2_TXEIE }, none)

/-- The TXE branch of `interruptHandler` (lines 133-156): the next word
(`writeBuffer[writePosition++]`, plus the high byte for word lengths above
8 bits, or `dummyData_`) is written to DR - a pure hardware output, not
recorded by the model - writePosition advances by the data size, and the TXE
interrupt is disabled. -/
def ChipState.txeBranch (s : ChipState) : ChipState × Option Nat :=
  let wordLength := getWordLength s.cr2
  ({ s with writePosition_ := s.writePosition_ +
              (if s.writeBuffer_ then (if wordLength > 8 then 2 else 1)
               else (wordLength + 8 - 1) / 8),
            cr2 := s.cr2 &&& not16 SPI_CR2_TXEIE }, none)

/-- `ChipSpiMasterLowLevel::interruptHandler` (lines 96-173).  DR reads
deliver `irq.dr` (one byte when the word length is at most 8 bits, one
halfword otherwise). -/
def ChipState.interruptHandler (s : ChipState) (irq : IrqInput) : ChipState × Option Nat :=
  let sr := irq.sr
  let cr2 := s.cr2
  if sr &&& SPI_SR_OVR ≠ 0 ∧ cr2 &&& SPI_CR2_ERRIE ≠ 0 then s.ovrBranch sr
  else if sr &&& SPI_SR_RXNE ≠ 0 ∧ cr2 &&& SPI_CR2_RXNEIE ≠ 0 then s.rxneBranch irq.dr
  else if sr &&& SPI_SR_TXE ≠ 0 ∧ cr2 &&& SPI_CR2_TXEIE ≠ 0 then s.txeBranch
  else (s, none)

/-- Runs a sequence of interrupts through `interruptHandler`, collecting every
callback invocation (in order). -/
def ChipState.runIrqs (s : ChipState) : List IrqInput → ChipState × List Nat
  | [] => (s, [])
  | irq :: rest =>
    let (s1, ev) := s.interruptHandler irq
    let (s2, evs) := s1.runIrqs rest
    (s2, ev.toList ++ evs)

/-! ## DMA channel engine: `DmaChannelFlags`, `DmaChannel`, `UniqueHandle`

`DmaChannel.hpp` (with the flag encoding and the inline `UniqueHandle`
methods) is among the sources; the out-of-line bodies in `DmaChannel.cpp`
are not and are modelled from the spec where noted. -/

/-- Flag encoding of `DmaChannelFlags` (DmaChannel.hpp lines 30-113). -/
def transferCompleteInterruptDisable : Nat := 0 <<< 4
def transferCompleteInterruptEnable : Nat := 1 <<< 4
def peripheralToMemory : Nat := 0 <<< 6
def memoryToPeripheral : Nat := 1 <<< 6
def peripheralFixed : Nat := 0 <<< 9
def peripheralIncrement : Nat := 1 <<< 9
def memoryFixed : Nat := 0 <<< 10
def memoryIncrement : Nat := 1 <<< 10
def peripheralDataSize1 : Nat := 0 <<< 11
def peripheralDataSize2 : Nat := 1 <<< 11
def peripheralDataSize4 : Nat := 2 <<< 11
def memoryDataSize1 : Nat := 0 <<< 13
def memoryDataSize2 : Nat := 1 <<< 13
def memoryDataSize4 : Nat := 2 <<< 13
def lowPriority : Nat := 0 <<< 16
def veryHighPriority : Nat := 3 <<< 16
def dataSize1 : Nat := peripheralDataSize1 ||| memoryDataSize1
def dataSize2 : Nat := peripheralDataSize2 ||| memoryDataSize2

/-- Memory data size in bytes encoded in a flags value (bits 13-14). -/
def memoryDataSizeOf (flags : Nat) : Nat := 1 <<< ((flags >>> 13) &&& 3)

/-- Peripheral data size in bytes encoded in a flags value (bits 11-12). -/
def peripheralDataSizeOf (flags : Nat) : Nat := 1 <<< ((flags >>> 11) &&& 3)

/-- Burst size in beats from a two-bit field value: 0 ↦ 1, v ↦ 2^(v+1). -/
def burstOf (v : Nat) : Nat := if v = 0 then 1 else 2 ^ (v + 1)

/-- Memory burst size in beats encoded in a flags value (bits 23-24). -/
def memoryBurstSizeOf (flags : Nat) : Nat := burstOf ((flags >>> 23) &&& 3)

/-- Peripheral burst size in beats encoded in a flags value (bits 21-22). -/
def peripheralBurstSizeOf (flags : Nat) : Nat := burstOf ((flags >>> 21) &&& 3)

/-- State of one `DmaChannel`.  The spec's invariant ties reservation to a
non-null observer (`functor_`), modelled as the flag `reserved_`. -/
structure DmaChannelState where
  /-- whether `functor_` is non-null, i.e. the channel is reserved -/
  reserved_ : Bool
  request_ : Nat
  /-- whether a transfer is in progress (channel enabled) -/
  inProgress : Bool
  memoryAddress_ : Nat
  peripheralAddress_ : Nat
  transactions_ : Nat
  flags_ : Nat
  /-- hardware remaining-transactions counter -/
  transactionsLeft_ : Nat
deriving DecidableEq, Repr

/-- Modelled from the spec: `DmaChannel::reserve` (DmaChannel.cpp is not
among the sources).  Fails EBUSY when the channel is already reserved, EINVAL
when the request id is outside [0..15]; otherwise stores the request id and
the observer. -/
def DmaChannelState.reserve (ch : DmaChannelState) (request : Nat) : Nat × DmaChannelState :=
  if ch.reserved_ then (EBUSY, ch)
  else if request > 15 then (EINVAL, ch)
  else (0, { ch with reserved_ := true, request_ := request })

/-- Modelled from the spec: `DmaChannel::release` clears the observer and the
request id, returning the channel to available. -/
def DmaChannelState.release (ch : DmaChannelState) : DmaChannelState :=
  { ch with reserved_ := false, request_ := 0 }

/-- Modelled from the spec: `DmaChannel::configureTransfer` - fails EBUSY
while a transfer is in progress; EINVAL when the memory address is not
aligned to (memory data size × memory burst size, capped at 16 bytes), the
peripheral address is not aligned to (peripheral data size × peripheral burst
size), or there are zero transactions; ENOTSUP for more than 65535
transactions (16-bit hardware counter); otherwise stores the parameters
without starting the channel. -/
def DmaChannelState.configureTransfer (ch : DmaChannelState) (memoryAddress peripheralAddress
    transactions flags : Nat) : Nat × DmaChannelState :=
  if ch.inProgress then (EBUSY, ch)
  else if transactions = 0 then (EINVAL, ch)
  else if memoryAddress % min (memoryDataSizeOf flags * memoryBurstSizeOf flags) 16 ≠ 0 then
    (EINVAL, ch)
  else if peripheralAddress % (peripheralDataSizeOf flags * peripheralBurstSizeOf flags) ≠ 0 then
    (EINVAL, ch)
  else if transactions > 65535 then (ENOTSUP, ch)
  else (0, { ch with memoryAddress_ := memoryAddress, peripheralAddress_ := peripheralAddress,
                     transactions_ := transactions, flags_ := flags,
                     transactionsLeft_ := transactions })

/-- Modelled from the spec: `DmaChannel::startTransfer` enables the channel;
fails EBUSY when already running. -/
def DmaChannelState.startTransfer (ch : DmaChannelState) : Nat × DmaChannelState :=
  if ch.inProgress then (EBUSY, ch) else (0, { ch with inProgress := true })

/-- Modelled from the spec: `DmaChannel::stopTransfer` is idempotent -
disables the channel and clears pending flags. -/
def DmaChannelState.stopTransfer (ch : DmaChannelState) : DmaChannelState :=
  { ch with inProgress := false }

/-- Modelled from the spec: `DmaChannel::getTransactionsLeft` returns the
hardware remaining-transactions counter. -/
def DmaChannelState.getTransactionsLeft (ch : DmaChannelState) : Nat := ch.transactionsLeft_

/-- `DmaChannel::UniqueHandle` (DmaChannel.hpp lines 155-298).  The pointer
`channel_` is modelled as a flag: in the drivers each handle is statically
wired to exactly one channel, whose state every operation receives and
returns explicitly. -/
structure UniqueHandle where
  /-- whether `channel_` is non-null -/
  channel_ : Bool
deriving DecidableEq, Repr

/-- `UniqueHandle::configureTransfer` (hpp lines 191-198): EBADF when no
channel is associated, otherwise delegates. -/
def UniqueHandle.configureTransfer (h : UniqueHandle) (ch : DmaChannelState)
    (memoryAddress peripheralAddress transactions flags : Nat) : Nat × DmaChannelState :=
  if h.channel_ = false then (EBADF, ch)
  else ch.configureTransfer memoryAddress peripheralAddress transactions flags

/-- `UniqueHandle::getTransactionsLeft` (hpp lines 206-212). -/
def UniqueHandle.getTransactionsLeft (h : UniqueHandle) (ch : DmaChannelState) : Nat × Nat :=
  if h.channel_ = false then (EBADF, 0) else (0, ch.getTransactionsLeft)

/-- `UniqueHandle::release` (hpp lines 218-225): a no-op on an empty handle,
otherwise releases the channel and clears the association. -/
def UniqueHandle.release (h : UniqueHandle) (ch : DmaChannelState) :
    UniqueHandle × DmaChannelState :=
  if h.channel_ = false then (h, ch)
  else ({ channel_ := false }, ch.release)

/-- `UniqueHandle::reserve` (hpp lines 239-249): releases any current
association, reserves the channel, and on success stores the association. -/
def UniqueHandle.reserve (h : UniqueHandle) (ch : DmaChannelState) (request : Nat) :
    Nat × UniqueHandle × DmaChannelState :=
  let (h, ch) := h.release ch
  let (ret, ch) := ch.reserve request
  if ret ≠ 0 then (ret, h, ch)
  else (0, { channel_ := true }, ch)

/-- `UniqueHandle::startTransfer` (hpp lines 262-268). -/
def UniqueHandle.startTransfer (h : UniqueHandle) (ch : DmaChannelState) :
    Nat × DmaChannelState :=
  if h.channel_ = false then (EBADF, ch) else ch.startTransfer

/-- `UniqueHandle::stopTransfer` (hpp lines 280-287): EBADF on an empty
handle, otherwise stops the channel and returns 0. -/
def UniqueHandle.stopTransfer (h : UniqueHandle) (ch : DmaChannelState) :
    Nat × DmaChannelState :=
  if h.channel_ = false then (EBADF, ch) else (0, ch.stopTransfer)

/-! ## DMA-based driver: `SpiMasterLowLevelDmaBased` -/

/-- State of a `SpiMasterLowLevelDmaBased` object: its fields, the two DMA
channels with their handles, and the relevant addresses.  The addresses of
`rxDummyData_` / `txDummyData_` and of the peripheral's DR register are
opaque machine addresses, carried as plain numbers. -/
structure SpiDmaState where
  started_ : Bool
  wordLength_ : Nat
  txDummyData_ : Nat
  cr1 : Nat
  cr2 : Nat
  /-- `spiMasterBase_` observer pointer; `some id` when non-null -/
  spiMasterBase_ : Option Nat
  size_ : Nat
  rxDmaChannelUniqueHandle_ : UniqueHandle
  txDmaChannelUniqueHandle_ : UniqueHandle
  rxDmaChannel_ : DmaChannelState
  txDmaChannel_ : DmaChannelState
  rxDmaRequest_ : Nat
  txDmaRequest_ : Nat
  /-- address of the `rxDummyData_` field -/
  rxDummyAddress : Nat
  /-- address of the `txDummyData_` field -/
  txDummyAddress : Nat
  /-- `spiPeripheral_.getDrAddress()` -/
  drAddress : Nat
deriving DecidableEq, Repr

/-- `isStarted()` of the DMA-based driver; body in the header, which is not
among the sources - modelled from the spec as for `ChipState.isStarted`. -/
def SpiDmaState.isStarted (s : SpiDmaState) : Bool := s.started_

/-- `isTransferInProgress()` of the DMA-based driver; body in the header,
which is not among the sources - modelled from the spec: BUSY exactly while
an observer is registered. -/
def SpiDmaState.isTransferInProgress (s : SpiDmaState) : Bool := s.spiMasterBase_.isSome

/-- `SpiMasterLowLevelDmaBased::start` (lines 63-93).  The
`estd::makeScopeGuard` releasing the RX handle runs exactly when the TX
reservation fails (on success `scopeGuard.release()` disarms it); the embedding
inlines it at its firing point. -/
def SpiDmaState.start (s : SpiDmaState) : SpiDmaState × Nat :=
  if s.isStarted = true then (s, EBADF)
  else
    let (ret, rxH, rxCh) := s.rxDmaChannelUniqueHandle_.reserve s.rxDmaChannel_ s.rxDmaRequest_
    let s := { s with rxDmaChannelUniqueHandle_ := rxH, rxDmaChannel_ := rxCh }
    if ret ≠ 0 then (s, ret)
    else
      let (ret, txH, txCh) := s.txDmaChannelUniqueHandle_.reserve s.txDmaChannel_ s.txDmaRequest_
      let s := { s with txDmaChannelUniqueHandle_ := txH, txDmaChannel_ := txCh }
      if ret ≠ 0 then
        let (rxH, rxCh) := s.rxDmaChannelUniqueHandle_.release s.rxDmaChannel_
        ({ s with rxDmaChannelUniqueHandle_ := rxH, rxDmaChannel_ := rxCh }, ret)
      else
        ({ s with wordLength_ := 8,
                  cr1 := SPI_CR1_SSM ||| SPI_CR1_SSI ||| SPI_CR1_SPE ||| SPI_CR1_BR ||| SPI_CR1_MSTR,
                  cr2 := SPI_CR2_FRXTH ||| (8 - 1) <<< SPI_CR2_DS_Pos |||
                         SPI_CR2_TXDMAEN ||| SPI_CR2_RXDMAEN,
                  started_ := true }, 0)

/-- The `dataSize = (wordLength_ + 8 - 1) / 8` local of
`SpiMasterLowLevelDmaBased::startTransfer` (line 107). -/
def dmaDataSize (wordLength : Nat) : Nat := (wordLength + 8 - 1) / 8

/-- `SpiMasterLowLevelDmaBased::startTransfer` (lines 95-152).  Buffers are
passed as `Option` addresses (`none` is a null pointer). -/
def SpiDmaState.startTransfer (s : SpiDmaState) (spiMasterBase : Nat)
    (writeBuffer readBuffer : Option Nat) (size : Nat) : SpiDmaState × Nat :=
  if size = 0 then (s, EINVAL)
  else if s.isStarted = false then (s, EBADF)
  else if s.isTransferInProgress = true then (s, EBUSY)
  else if size % dmaDataSize s.wordLength_ ≠ 0 then (s, EINVAL)
  else
    let transactions := size / dmaDataSize s.wordLength_
    let commonDmaFlags := peripheralFixed |||
        (if dmaDataSize s.wordLength_ = 1 then dataSize1 else dataSize2)
      let memoryAddress := readBuffer.getD s.rxDummyAddress
      let rxDmaFlags := transferCompleteInterruptEnable ||| peripheralToMemory |||
          (if readBuffer.isSome then memoryIncrement else memoryFixed) ||| veryHighPriority
      let (ret, rxCh) := s.rxDmaChannelUniqueHandle_.configureTransfer s.rxDmaChannel_
          memoryAddress s.drAddress transactions (commonDmaFlags ||| rxDmaFlags)
      let s := { s with rxDmaChannel_ := rxCh }
      if ret ≠ 0 then (s, ret)
      else
        let memoryAddress := writeBuffer.getD s.txDummyAddress
        let txDmaFlags := transferCompleteInterruptDisable ||| memoryToPeripheral |||
            (if writeBuffer.isSome then memoryIncrement else 0) ||| lowPriority
        let (ret, txCh) := s.txDmaChannelUniqueHandle_.configureTransfer s.txDmaChannel_
            memoryAddress s.drAddress transactions (commonDmaFlags ||| txDmaFlags)
        let s := { s with txDmaChannel_ := txCh }
        if ret ≠ 0 then (s, ret)
        else
          let s := { s with spiMasterBase_ := some spiMasterBase, size_ := size }
          let (_, rxCh) := s.rxDmaChannelUniqueHandle_.startTransfer s.rxDmaChannel_
          let s := { s with rxDmaChannel_ := rxCh }
          let (_, txCh) := s.txDmaChannelUniqueHandle_.startTransfer s.txDmaChannel_
          ({ s with txDmaChannel_ := txCh }, 0)

/-- `SpiMasterLowLevelDmaBased::stop` (lines 154-170). -/
def SpiDmaState.stop (s : SpiDmaState) : SpiDmaState × Nat :=
  if s.isStarted = false then (s, EBADF)
  else if s.isTransferInProgress = true then (s, EBUSY)
  else
    let (rxH, rxCh) := s.rxDmaChannelUniqueHandle_.release s.rxDmaChannel_
    let s := { s with rxDmaChannelUniqueHandle_ := rxH, rxDmaChannel_ := rxCh }
    let (txH, txCh) := s.txDmaChannelUniqueHandle_.release s.txDmaChannel_
    ({ s with txDmaChannelUniqueHandle_ := txH, txDmaChannel_ := txCh,
              cr1 := 0, cr2 := 0, started_ := false }, 0)

/-- One step of the DMA completion path, for the order-of-operations record
of `SpiMasterLowLevelDmaBased::eventHandler`. -/
inductive DmaEventStep where
  | stopTx
  | stopRx
  | computeByteCount
  | clearObserver
  | invokeCallback
deriving DecidableEq, Repr

/-- `SpiMasterLowLevelDmaBased::eventHandler` (lines 176-188).  Returns the
state at the instant the callback runs, `some bytesTransfered` exactly when
the callback is invoked (`none` only when the observer pointer was already
null, where the source's `assert` would fire), and the ordered record of the
operations performed.  `size_ - transactionsLeft * dataSize` is 32-bit
`size_t` arithmetic, hence `sub32`. -/
def SpiDmaState.eventHandler (s : SpiDmaState) (transactionsLeft : Nat) :
    SpiDmaState × Option Nat × List DmaEventStep :=
  let (_, txCh) := s.txDmaChannelUniqueHandle_.stopTransfer s.txDmaChannel_
  let s := { s with txDmaChannel_ := txCh }
  let (_, rxCh) := s.rxDmaChannelUniqueHandle_.stopTransfer s.rxDmaChannel_
  let s := { s with rxDmaChannel_ := rxCh }
  let bytesTransfered := sub32 s.size_ (transactionsLeft * ((s.wordLength_ + 8 - 1) / 8))
  let s := { s with size_ := 0 }
  match s.spiMasterBase_ with
  | some _ =>
    ({ s with spiMasterBase_ := none }, some bytesTransfered,
      [DmaEventStep.stopTx, DmaEventStep.stopRx, DmaEventStep.computeByteCount,
        DmaEventStep.clearObserver, DmaEventStep.invokeCallback])
  | none =>
    ({ s with spiMasterBase_ := none }, none,
      [DmaEventStep.stopTx, DmaEventStep.stopRx, DmaEventStep.computeByteCount,
        DmaEventStep.clearObserver])

/-- `SpiMasterLowLevelDmaBased::RxDmaChannelFunctor::transferCompleteEvent`
(lines 194-197). -/
def SpiDmaState.rxTransferCompleteEvent (s : SpiDmaState) :
    SpiDmaState × Option Nat × List DmaEventStep :=
  s.eventHandler 0

/-- `SpiMasterLowLevelDmaBased::RxDmaChannelFunctor::transferErrorEvent`
(lines 199-202). -/
def SpiDmaState.rxTransferErrorEvent (s : SpiDmaState) (transactionsLeft : Nat) :
    SpiDmaState × Option Nat × List DmaEventStep :=
  s.eventHandler transactionsLeft

/-- `SpiMasterLowLevelDmaBased::TxDmaChannelFunctor::transferErrorEvent`
(lines 208-211). -/
def SpiDmaState.txTransferErrorEvent (s : SpiDmaState) (transactionsLeft : Nat) :
    SpiDmaState × Option Nat × List DmaEventStep :=
  s.eventHandler transactionsLeft

/-! ## Bitwise helper lemmas -/

theorem land_zero (x : Nat) : x &&& 0 = 0 := Nat.le_zero.mp Nat.and_le_right

theorem testBit_of_disjoint {a b : Nat} (h : a &&& b = 0) (i : Nat) :
    (a.testBit i && b.testBit i) = false := by
  rw [← Nat.testBit_land, h, Nat.zero_testBit]

theorem testBit_of_cover {a b : Nat} (h : a &&& b = b) (i : Nat) :
    (a.testBit i && b.testBit i) = b.testBit i := by
  rw [← Nat.testBit_land, h]

/-- Setting bits outside a mask does not change the masked value. -/
theorem lor_land_of_disjoint (x : Nat) {a b : Nat} (h : a &&& b = 0) :
    (x ||| a) &&& b = x &&& b := by
  apply Nat.eq_of_testBit_eq
  intro i
  rw [Nat.testBit_land, Nat.testBit_lor, Bool.and_or_distrib_right, testBit_of_disjoint h i,
    Bool.or_false, ← Nat.testBit_land]

/-- Setting all bits of a mask makes the masked value the mask itself. -/
theorem lor_land_of_cover (x : Nat) {a b : Nat} (h : a &&& b = b) :
    (x ||| a) &&& b = b := by
  apply Nat.eq_of_testBit_eq
  intro i
  rw [Nat.testBit_land, Nat.testBit_lor, Bool.and_or_distrib_right, testBit_of_cover h i]
  cases x.testBit i <;> cases b.testBit i <;> rfl

/-- Masking twice, the second mask inside the first: one mask suffices. -/
theorem land_land_of_cover (x : Nat) {a b : Nat} (h : a &&& b = b) :
    (x &&& a) &&& b = x &&& b := by rw [Nat.land_assoc, h]

/-- Masking twice with disjoint masks clears everything. -/
theorem land_land_of_disjoint (x : Nat) {a b : Nat} (h : a &&& b = 0) :
    (x &&& a) &&& b = 0 := by rw [Nat.land_assoc, h, land_zero]

/-! ## Facts about `getWordLength` and the derived data size -/

theorem getWordLength_pos (cr2 : Nat) : 1 ≤ getWordLength cr2 := Nat.le_add_left 1 _

theorem getWordLength_le (cr2 : Nat) : getWordLength cr2 ≤ 16 := by
  have h1 : cr2 &&& SPI_CR2_DS ≤ 3840 := by
    calc cr2 &&& SPI_CR2_DS ≤ SPI_CR2_DS := Nat.and_le_right
    _ = 3840 := rfl
  have h8 : (2 : Nat) ^ 8 = 256 := by norm_num
  have h2 : (cr2 &&& SPI_CR2_DS) >>> 8 ≤ 15 := by
    rw [Nat.shiftRight_eq_div_pow, h8]
    omega
  unfold getWordLength SPI_CR2_DS_Pos
  omega

/-- The data size `(wordLength + 8 - 1) / 8` is one byte for word lengths up
to 8 bits and two bytes otherwise. -/
def dataSizeOfCr2 (cr2 : Nat) : Nat := (getWordLength cr2 + 8 - 1) / 8

theorem dataSizeOfCr2_eq (cr2 : Nat) :
    dataSizeOfCr2 cr2 = if getWordLength cr2 ≤ 8 then 1 else 2 := by
  have h1 := getWordLength_pos cr2
  have h2 := getWordLength_le cr2
  unfold dataSizeOfCr2
  split <;> omega

theorem dataSizeOfCr2_pos (cr2 : Nat) : 0 < dataSizeOfCr2 cr2 := by
  rw [dataSizeOfCr2_eq]; split <;> omega

/-! ## Lifecycle invariants of the interrupt-based driver -/

/-- The driver is in the middle of a transfer: an observer is registered, the
RXNE and ERR interrupts are enabled, and the read position is a multiple of
the data size strictly below the (data-size-multiple) transfer size. -/
def ChipBusy (s : ChipState) : Prop :=
  s.spiMasterBase_.isSome = true ∧
  s.cr2 &&& SPI_CR2_RXNEIE ≠ 0 ∧
  s.cr2 &&& SPI_CR2_ERRIE ≠ 0 ∧
  s.readPosition_ < s.size_ ∧
  dataSizeOfCr2 s.cr2 ∣ s.readPosition_ ∧
  dataSizeOfCr2 s.cr2 ∣ s.size_

/-- No transfer in progress: no observer and all three transfer interrupts
(TXE, RXNE, ERR) disabled. -/
def ChipIdle (s : ChipState) : Prop :=
  s.spiMasterBase_ = none ∧
  s.cr2 &&& (SPI_CR2_TXEIE ||| SPI_CR2_RXNEIE ||| SPI_CR2_ERRIE) = 0

theorem zero_land (b : Nat) : 0 &&& b = 0 := Nat.le_zero.mp Nat.and_le_left

/-- Clearing TXEIE does not change the word length encoded in CR2. -/
theorem getWordLength_clear_txeie (x : Nat) :
    getWordLength (x &&& not16 SPI_CR2_TXEIE) = getWordLength x := by
  unfold getWordLength
  rw [land_land_of_cover x (by decide)]

/-- Enabling TXEIE does not change the word length encoded in CR2. -/
theorem getWordLength_set_txeie (x : Nat) :
    getWordLength (x ||| SPI_CR2_TXEIE) = getWordLength x := by
  unfold getWordLength
  rw [lor_land_of_disjoint x (by decide)]

/-- Enabling the TXE/RXNE/ERR interrupts does not change the word length
encoded in CR2. -/
theorem getWordLength_set_irqs (x : Nat) :
    getWordLength (x ||| (SPI_CR2_TXEIE ||| SPI_CR2_RXNEIE ||| SPI_CR2_ERRIE)) =
      getWordLength x := by
  unfold getWordLength
  rw [lor_land_of_disjoint x (by decide)]

theorem rxneie_clear_txeie (x : Nat) :
    (x &&& not16 SPI_CR2_TXEIE) &&& SPI_CR2_RXNEIE = x &&& SPI_CR2_RXNEIE :=
  land_land_of_cover x (by decide)

theorem errie_clear_txeie (x : Nat) :
    (x &&& not16 SPI_CR2_TXEIE) &&& SPI_CR2_ERRIE = x &&& SPI_CR2_ERRIE :=
  land_land_of_cover x (by decide)

theorem rxneie_set_txeie (x : Nat) :
    (x ||| SPI_CR2_TXEIE) &&& SPI_CR2_RXNEIE = x &&& SPI_CR2_RXNEIE :=
  lor_land_of_disjoint x (by decide)

theorem errie_set_txeie (x : Nat) :
    (x ||| SPI_CR2_TXEIE) &&& SPI_CR2_ERRIE = x &&& SPI_CR2_ERRIE :=
  lor_land_of_disjoint x (by decide)

/-- A data-size multiple strictly below another data-size multiple stays
strictly below it after one more data-size step, unless it reaches it. -/
theorem add_dataSize_lt {ds rp size : Nat} (hlt : rp < size)
    (h1 : ds ∣ rp) (h2 : ds ∣ size) (hne : rp + ds ≠ size) : rp + ds < size := by
  obtain ⟨a, ha⟩ := h1
  obtain ⟨b, hb⟩ := h2
  subst ha hb
  have hab : a < b := by
    by_contra hc
    push_neg at hc
    exact absurd (Nat.mul_le_mul_left ds hc) (not_le.mpr hlt)
  have h3 : ds * (a + 1) ≤ ds * b := Nat.mul_le_mul_left ds hab
  have h4 : ds * a + ds = ds * (a + 1) := by ring
  exact lt_of_le_of_ne (h4 ▸ h3) hne

/-- Behaviour of the completion block: the callback fires (with
`readPosition_` as the byte count) iff an observer is registered, and the
returned state - the state the callback runs in - is idle with all transfer
state cleared. -/
theorem finishTransfer_spec (s : ChipState) :
    (s.finishTransfer).2 = (if s.spiMasterBase_.isSome then some s.readPosition_ else none) ∧
    ChipIdle (s.finishTransfer).1 ∧
    (s.finishTransfer).1.started_ = s.started_ ∧
    (s.finishTransfer).1.size_ = 0 ∧
    (s.finishTransfer).1.readPosition_ = 0 ∧
    (s.finishTransfer).1.writePosition_ = 0 ∧
    (s.finishTransfer).1.readBuffer_ = false ∧
    (s.finishTransfer).1.writeBuffer_ = false ∧
    (s.finishTransfer).1.rxMem = s.rxMem ∧
    (s.finishTransfer).1.cr2 =
      s.cr2 &&& not16 (SPI_CR2_TXEIE ||| SPI_CR2_RXNEIE ||| SPI_CR2_ERRIE) := by
  have hidle : ∀ t : ChipState, t.cr2 = s.cr2 &&& not16 (SPI_CR2_TXEIE ||| SPI_CR2_RXNEIE |||
      SPI_CR2_ERRIE) → t.spiMasterBase_ = none → ChipIdle t := by
    intro t hcr2 hobs
    refine ⟨hobs, ?_⟩
    rw [hcr2]
    exact land_land_of_disjoint s.cr2 (by decide)
  cases hs : s.spiMasterBase_ with
  | none =>
    refine ⟨?_, hidle _ ?_ ?_, ?_, ?_, ?_, ?_, ?_, ?_, ?_, ?_⟩ <;>
      simp [ChipState.finishTransfer, hs]
  | some o =>
    refine ⟨?_, hidle _ ?_ ?_, ?_, ?_, ?_, ?_, ?_, ?_, ?_, ?_⟩ <;>
      simp [ChipState.finishTransfer, hs]

/-- In an idle driver all three transfer interrupts are disabled, so the
interrupt handler takes no branch: it neither changes state nor fires a
callback. -/
theorem interruptHandler_idle (s : ChipState) (irq : IrqInput) (h : ChipIdle s) :
    s.interruptHandler irq = (s, none) := by
  obtain ⟨hobs, hcr2⟩ := h
  have hT : s.cr2 &&& SPI_CR2_TXEIE = 0 := by
    have h2 := land_land_of_cover s.cr2
      (a := SPI_CR2_TXEIE ||| SPI_CR2_RXNEIE ||| SPI_CR2_ERRIE) (b := SPI_CR2_TXEIE) (by decide)
    rw [hcr2, zero_land] at h2
    exact h2.symm
  have hR : s.cr2 &&& SPI_CR2_RXNEIE = 0 := by
    have h2 := land_land_of_cover s.cr2
      (a := SPI_CR2_TXEIE ||| SPI_CR2_RXNEIE ||| SPI_CR2_ERRIE) (b := SPI_CR2_RXNEIE) (by decide)
    rw [hcr2, zero_land] at h2
    exact h2.symm
  have hE : s.cr2 &&& SPI_CR2_ERRIE = 0 := by
    have h2 := land_land_of_cover s.cr2
      (a := SPI_CR2_TXEIE ||| SPI_CR2_RXNEIE ||| SPI_CR2_ERRIE) (b := SPI_CR2_ERRIE) (by decide)
    rw [hcr2, zero_land] at h2
    exact h2.symm
  unfold ChipState.interruptHandler
  simp [hT, hR, hE]

/-- The overrun branch, from a busy state: either no callback and still busy,
or the callback fires with at most `size_` bytes and the returned state - the
state the callback runs in - is idle. -/
theorem ovrBranch_busy (s : ChipState) (sr : Nat) (h : ChipBusy s) :
    ((s.ovrBranch sr).2 = none ∧ ChipBusy (s.ovrBranch sr).1 ∧
      (s.ovrBranch sr).1.size_ = s.size_ ∧ (s.ovrBranch sr).1.started_ = s.started_) ∨
    (∃ b, (s.ovrBranch sr).2 = some b ∧ b ≤ s.size_ ∧ ChipIdle (s.ovrBranch sr).1 ∧
      (s.ovrBranch sr).1.started_ = s.started_) := by
  obtain ⟨hobs, hR, hE, hlt, hdr, hds⟩ := h
  unfold ChipState.ovrBranch
  by_cases hbsy : sr &&& SPI_SR_BSY = 0
  · right
    rw [if_pos hbsy]
    obtain ⟨hev, hidle, hst, -⟩ :=
      finishTransfer_spec { s with cr2 := s.cr2 &&& not16 SPI_CR2_TXEIE }
    refine ⟨s.readPosition_, ?_, le_of_lt hlt, hidle, hst⟩
    rw [hev]
    simp [hobs]
  · left
    rw [if_neg hbsy]
    refine ⟨rfl, ⟨hobs, ?_, ?_, hlt, ?_, ?_⟩, rfl, rfl⟩
    · show (s.cr2 &&& not16 SPI_CR2_TXEIE) &&& SPI_CR2_RXNEIE ≠ 0
      rw [rxneie_clear_txeie]
      exact hR
    · show (s.cr2 &&& not16 SPI_CR2_TXEIE) &&& SPI_CR2_ERRIE ≠ 0
      rw [errie_clear_txeie]
      exact hE
    · show dataSizeOfCr2 (s.cr2 &&& not16 SPI_CR2_TXEIE) ∣ s.readPosition_
      unfold dataSizeOfCr2
      rw [getWordLength_clear_txeie]
      exact hdr
    · show dataSizeOfCr2 (s.cr2 &&& not16 SPI_CR2_TXEIE) ∣ s.size_
      unfold dataSizeOfCr2
      rw [getWordLength_clear_txeie]
      exact hds

/-- The TXE branch, from a busy state: no callback, still busy, size
unchanged. -/
theorem txeBranch_busy (s : ChipState) (h : ChipBusy s) :
    (s.txeBranch).2 = none ∧ ChipBusy (s.txeBranch).1 ∧
      (s.txeBranch).1.size_ = s.size_ ∧ (s.txeBranch).1.started_ = s.started_ := by
  obtain ⟨hobs, hR, hE, hlt, hdr, hds⟩ := h
  unfold ChipState.txeBranch
  refine ⟨rfl, ⟨hobs, ?_, ?_, hlt, ?_, ?_⟩, rfl, rfl⟩
  · show (s.cr2 &&& not16 SPI_CR2_TXEIE) &&& SPI_CR2_RXNEIE ≠ 0
    rw [rxneie_clear_txeie]
    exact hR
  · show (s.cr2 &&& not16 SPI_CR2_TXEIE) &&& SPI_CR2_ERRIE ≠ 0
    rw [errie_clear_txeie]
    exact hE
  · show dataSizeOfCr2 (s.cr2 &&& not16 SPI_CR2_TXEIE) ∣ s.readPosition_
    unfold dataSizeOfCr2
    rw [getWordLength_clear_txeie]
    exact hdr
  · show dataSizeOfCr2 (s.cr2 &&& not16 SPI_CR2_TXEIE) ∣ s.size_
    unfold dataSizeOfCr2
    rw [getWordLength_clear_txeie]
    exact hds

/-- Field bookkeeping of `rxStore`: everything except the read buffer memory
is preserved, and the read position advances by exactly one data size. -/
theorem rxStore_facts (s : ChipState) (word : Nat) :
    (s.rxStore word).cr2 = s.cr2 ∧
    (s.rxStore word).spiMasterBase_ = s.spiMasterBase_ ∧
    (s.rxStore word).size_ = s.size_ ∧
    (s.rxStore word).started_ = s.started_ ∧
    (s.rxStore word).readPosition_ = s.readPosition_ + dataSizeOfCr2 s.cr2 := by
  have hds1 : getWordLength s.cr2 ≤ 8 → dataSizeOfCr2 s.cr2 = 1 := by
    intro h8
    rw [dataSizeOfCr2_eq, if_pos h8]
  have hds2 : ¬getWordLength s.cr2 ≤ 8 → dataSizeOfCr2 s.cr2 = 2 := by
    intro h8
    rw [dataSizeOfCr2_eq, if_neg h8]
  unfold ChipState.rxStore
  by_cases hrb : s.readBuffer_ <;> by_cases h8 : getWordLength s.cr2 > 8 <;>
    simp only [hrb, h8, if_true, if_false, Bool.false_eq_true, gt_iff_lt, not_lt,
      ite_true, ite_false]
  · refine ⟨?_, ?_, ?_, ?_, ?_⟩ <;> first | trivial | rw [hds2 (by omega)]
  · refine ⟨?_, ?_, ?_, ?_, ?_⟩ <;> first | trivial | rw [hds1 (by omega)]
  · refine ⟨?_, ?_, ?_, ?_, ?_⟩ <;> trivial
  · refine ⟨?_, ?_, ?_, ?_, ?_⟩ <;> trivial

/-- Common tail of the RXNE branch: after the read position advanced by one
data size, the transfer either completes exactly at the size or continues
with TXE re-enabled. -/
theorem rxneTail_busy (s s1 : ChipState) (h : ChipBusy s)
    (hcr2 : s1.cr2 = s.cr2) (hsm : s1.spiMasterBase_ = s.spiMasterBase_)
    (hsz : s1.size_ = s.size_) (hst : s1.started_ = s.started_)
    (hrp : s1.readPosition_ = s.readPosition_ + dataSizeOfCr2 s.cr2) :
    (((if s1.readPosition_ = s1.size_ then s1.finishTransfer
        else ({ s1 with cr2 := s1.cr2 ||| SPI_CR2_TXEIE }, none)) : ChipState × Option Nat).2
        = none ∧
      ChipBusy (if s1.readPosition_ = s1.size_ then s1.finishTransfer
        else ({ s1 with cr2 := s1.cr2 ||| SPI_CR2_TXEIE }, none)).1 ∧
      (if s1.readPosition_ = s1.size_ then s1.finishTransfer
        else ({ s1 with cr2 := s1.cr2 ||| SPI_CR2_TXEIE }, none)).1.size_ = s.size_ ∧
      (if s1.readPosition_ = s1.size_ then s1.finishTransfer
        else ({ s1 with cr2 := s1.cr2 ||| SPI_CR2_TXEIE }, none)).1.started_ = s.started_) ∨
    (∃ b, (if s1.readPosition_ = s1.size_ then s1.finishTransfer
        else ({ s1 with cr2 := s1.cr2 ||| SPI_CR2_TXEIE }, none)).2 = some b ∧ b ≤ s.size_ ∧
      ChipIdle (if s1.readPosition_ = s1.size_ then s1.finishTransfer
        else ({ s1 with cr2 := s1.cr2 ||| SPI_CR2_TXEIE }, none)).1 ∧
      (if s1.readPosition_ = s1.size_ then s1.finishTransfer
        else ({ s1 with cr2 := s1.cr2 ||| SPI_CR2_TXEIE }, none)).1.started_ = s.started_) := by
  obtain ⟨hobs, hR, hE, hlt, hdr, hds⟩ := h
  by_cases hfin : s1.readPosition_ = s1.size_
  · right
    rw [if_pos hfin]
    obtain ⟨hev, hidle, hst1, -⟩ := finishTransfer_spec s1
    refine ⟨s1.readPosition_, ?_, ?_, hidle, hst ▸ hst1⟩
    · rw [hev]
      have hobs1 : s1.spiMasterBase_.isSome = true := by rw [hsm]; exact hobs
      simp [hobs1]
    · rw [hfin, hsz]
  · left
    rw [if_neg hfin]
    refine ⟨rfl, ⟨?_, ?_, ?_, ?_, ?_, ?_⟩, hsz, hst⟩
    · show s1.spiMasterBase_.isSome = true
      rw [hsm]
      exact hobs
    · show (s1.cr2 ||| SPI_CR2_TXEIE) &&& SPI_CR2_RXNEIE ≠ 0
      rw [rxneie_set_txeie, hcr2]
      exact hR
    · show (s1.cr2 ||| SPI_CR2_TXEIE) &&& SPI_CR2_ERRIE ≠ 0
      rw [errie_set_txeie, hcr2]
      exact hE
    · show s1.readPosition_ < s1.size_
      rw [hrp, hsz]
      refine add_dataSize_lt hlt hdr hds ?_
      rw [← hrp, ← hsz]
      exact hfin
    · show dataSizeOfCr2 (s1.cr2 ||| SPI_CR2_TXEIE) ∣ s1.readPosition_
      unfold dataSizeOfCr2
      rw [getWordLength_set_txeie, hcr2, hrp]
      exact Dvd.dvd.add hdr dvd_rfl
    · show dataSizeOfCr2 (s1.cr2 ||| SPI_CR2_TXEIE) ∣ s1.size_
      unfold dataSizeOfCr2
      rw [getWordLength_set_txeie, hcr2, hsz]
      exact hds

/-- The RXNE branch, from a busy state: either no callback and still busy, or
the callback fires with exactly `size_` bytes and the returned state is
idle. -/
theorem rxneBranch_busy (s : ChipState) (dr : Nat) (h : ChipBusy s) :
    ((s.rxneBranch dr).2 = none ∧ ChipBusy (s.rxneBranch dr).1 ∧
      (s.rxneBranch dr).1.size_ = s.size_ ∧ (s.rxneBranch dr).1.started_ = s.started_) ∨
    (∃ b, (s.rxneBranch dr).2 = some b ∧ b ≤ s.size_ ∧ ChipIdle (s.rxneBranch dr).1 ∧
      (s.rxneBranch dr).1.started_ = s.started_) := by
  obtain ⟨h1, h2, h3, h4, h5⟩ :=
    rxStore_facts s (if getWordLength s.cr2 ≤ 8 then dr % 2 ^ 8 else dr % 2 ^ 16)
  exact rxneTail_busy s _ h h1 h2 h3 h4 h5

/-- One interrupt from a busy state: either no callback and still busy with
the same transfer size, or the callback fires with at most `size_` bytes and
the driver is idle at the instant the callback runs. -/
theorem interruptHandler_busy (s : ChipState) (irq : IrqInput) (h : ChipBusy s) :
    ((s.interruptHandler irq).2 = none ∧ ChipBusy (s.interruptHandler irq).1 ∧
      (s.interruptHandler irq).1.size_ = s.size_ ∧
      (s.interruptHandler irq).1.started_ = s.started_) ∨
    (∃ b, (s.interruptHandler irq).2 = some b ∧ b ≤ s.size_ ∧
      ChipIdle (s.interruptHandler irq).1 ∧
      (s.interruptHandler irq).1.started_ = s.started_) := by
  unfold ChipState.interruptHandler
  by_cases c1 : irq.sr &&& SPI_SR_OVR ≠ 0 ∧ s.cr2 &&& SPI_CR2_ERRIE ≠ 0
  · rw [if_pos c1]
    exact ovrBranch_busy s irq.sr h
  · rw [if_neg c1]
    by_cases c2 : irq.sr &&& SPI_SR_RXNE ≠ 0 ∧ s.cr2 &&& SPI_CR2_RXNEIE ≠ 0
    · rw [if_pos c2]
      exact rxneBranch_busy s irq.dr h
    · rw [if_neg c2]
      by_cases c3 : irq.sr &&& SPI_SR_TXE ≠ 0 ∧ s.cr2 &&& SPI_CR2_TXEIE ≠ 0
      · rw [if_pos c3]
        exact Or.inl (txeBranch_busy s h)
      · rw [if_neg c3]
        exact Or.inl ⟨rfl, h, rfl, rfl⟩

theorem runIrqs_cons (s : ChipState) (irq : IrqInput) (rest : List IrqInput) :
    s.runIrqs (irq :: rest) =
      (((s.interruptHandler irq).1.runIrqs rest).1,
        (s.interruptHandler irq).2.toList ++ ((s.interruptHandler irq).1.runIrqs rest).2) :=
  rfl

/-- An idle driver stays idle and fires no callback on any interrupt
sequence. -/
theorem runIrqs_idle (irqs : List IrqInput) (s : ChipState) (h : ChipIdle s) :
    s.runIrqs irqs = (s, []) := by
  induction irqs with
  | nil => rfl
  | cons irq rest ih =>
    rw [runIrqs_cons, interruptHandler_idle s irq h]
    simp [ih]

/-- A busy driver, run over any interrupt sequence, either stays busy having
fired no callback, or fires exactly one callback - with at most the transfer
size as byte count - and is idle from that point on. -/
theorem runIrqs_busy (irqs : List IrqInput) (s : ChipState) (h : ChipBusy s) :
    (ChipBusy (s.runIrqs irqs).1 ∧ (s.runIrqs irqs).2 = [] ∧
      (s.runIrqs irqs).1.size_ = s.size_) ∨
    (∃ b, (s.runIrqs irqs).2 = [b] ∧ b ≤ s.size_ ∧ ChipIdle (s.runIrqs irqs).1) := by
  induction irqs generalizing s with
  | nil => exact Or.inl ⟨h, rfl, rfl⟩
  | cons irq rest ih =>
    rcases interruptHandler_busy s irq h with ⟨hev, hbusy, hsz, -⟩ | ⟨b, hev, hle, hidle, -⟩
    · rcases ih _ hbusy with ⟨hb2, hnil, hsz2⟩ | ⟨b, hevs, hle2, hid⟩
      · left
        rw [runIrqs_cons]
        refine ⟨hb2, ?_, by rw [show (((s.interruptHandler irq).1.runIrqs rest).1,
          (s.interruptHandler irq).2.toList ++ ((s.interruptHandler irq).1.runIrqs rest).2).1.size_
            = ((s.interruptHandler irq).1.runIrqs rest).1.size_ from rfl, hsz2, hsz]⟩
        show (s.interruptHandler irq).2.toList ++ ((s.interruptHandler irq).1.runIrqs rest).2 = []
        rw [hev, hnil]
        rfl
      · right
        rw [runIrqs_cons]
        refine ⟨b, ?_, le_trans hle2 (le_of_eq hsz), hid⟩
        show (s.interruptHandler irq).2.toList ++ ((s.interruptHandler irq).1.runIrqs rest).2
          = [b]
        rw [hev, hevs]
        rfl
    · right
      rw [runIrqs_cons, runIrqs_idle rest _ hidle]
      refine ⟨b, ?_, hle, hidle⟩
      show (s.interruptHandler irq).2.toList ++ [] = [b]
      rw [hev]
      rfl

/-- 32-bit subtraction agrees with exact subtraction when no underflow or
overflow occurs. -/
theorem sub32_of_le {a b : Nat} (hb : b ≤ a) (ha : a < 2 ^ 32) : sub32 a b = a - b := by
  unfold sub32
  have hb32 : b < 2 ^ 32 := lt_of_le_of_lt hb ha
  rw [Nat.mod_eq_of_lt ha, Nat.mod_eq_of_lt hb32,
    show 2 ^ 32 + a - b = (a - b) + 2 ^ 32 by omega, Nat.add_mod_right]
  exact Nat.mod_eq_of_lt (by omega)

/-- A successful `startTransfer` on the interrupt-based driver leaves the
driver busy, with the requested size recorded and the started flag
untouched. -/
theorem startTransfer_ok (s : ChipState) (obs : Nat) (wb rb : Bool) (size : Nat)
    (h : (s.startTransfer obs wb rb size).2 = 0) :
    ChipBusy (s.startTransfer obs wb rb size).1 ∧
    (s.startTransfer obs wb rb size).1.size_ = size ∧
    (s.startTransfer obs wb rb size).1.started_ = s.started_ := by
  unfold ChipState.startTransfer at h ⊢
  split_ifs at h ⊢ with h1 h2 h3 h4
  · exact absurd h (show ¬EINVAL = 0 by decide)
  · exact absurd h (show ¬EBADF = 0 by decide)
  · exact absurd h (show ¬EBUSY = 0 by decide)
  · exact absurd h (show ¬EINVAL = 0 by decide)
  · refine ⟨⟨rfl, ?_, ?_, ?_, ?_, ?_⟩, rfl, rfl⟩
    · show (s.cr2 ||| (SPI_CR2_TXEIE ||| SPI_CR2_RXNEIE ||| SPI_CR2_ERRIE)) &&&
        SPI_CR2_RXNEIE ≠ 0
      rw [lor_land_of_cover s.cr2 (by decide)]
      decide
    · show (s.cr2 ||| (SPI_CR2_TXEIE ||| SPI_CR2_RXNEIE ||| SPI_CR2_ERRIE)) &&&
        SPI_CR2_ERRIE ≠ 0
      rw [lor_land_of_cover s.cr2 (by decide)]
      decide
    · show 0 < size
      omega
    · show dataSizeOfCr2 ((s.cr2 ||| (SPI_CR2_TXEIE ||| SPI_CR2_RXNEIE ||| SPI_CR2_ERRIE))) ∣ 0
      exact dvd_zero _
    · show dataSizeOfCr2 ((s.cr2 ||| (SPI_CR2_TXEIE ||| SPI_CR2_RXNEIE ||| SPI_CR2_ERRIE))) ∣
        size
      unfold dataSizeOfCr2
      rw [getWordLength_set_irqs]
      push_neg at h4
      exact Nat.dvd_of_mod_eq_zero h4

/-- Full behaviour of `SpiMasterLowLevelDmaBased::eventHandler`: both DMA
channels are stopped, the byte count is `size_ - transactionsLeft * dataSize`
in 32-bit arithmetic, the transfer state is cleared, and the callback fires
exactly when an observer was registered - with the operations in source
order. -/
theorem eventHandler_spec (d : SpiDmaState) (tl : Nat) :
    (d.eventHandler tl).2.1 = (if d.spiMasterBase_.isSome then
        some (sub32 d.size_ (tl * ((d.wordLength_ + 8 - 1) / 8))) else none) ∧
    (d.eventHandler tl).2.2 = (if d.spiMasterBase_.isSome then
        [DmaEventStep.stopTx, DmaEventStep.stopRx, DmaEventStep.computeByteCount,
          DmaEventStep.clearObserver, DmaEventStep.invokeCallback]
      else [DmaEventStep.stopTx, DmaEventStep.stopRx, DmaEventStep.computeByteCount,
          DmaEventStep.clearObserver]) ∧
    (d.eventHandler tl).1 = { d with
        txDmaChannel_ := (d.txDmaChannelUniqueHandle_.stopTransfer d.txDmaChannel_).2,
        rxDmaChannel_ := (d.rxDmaChannelUniqueHandle_.stopTransfer d.rxDmaChannel_).2,
        size_ := 0,
        spiMasterBase_ := none } := by
  cases hs : d.spiMasterBase_ <;>
    simp [SpiDmaState.eventHandler, hs]

/-! ## Concrete sample states for witnesses and counterexamples -/

/-- A reserved, running DMA channel with no transactions left. -/
def dmaChannelSample : DmaChannelState :=
  { reserved_ := true, request_ := 0, inProgress := true, memoryAddress_ := 0,
    peripheralAddress_ := 12, transactions_ := 5, flags_ := 0, transactionsLeft_ := 0 }

/-- A DMA-based driver in the middle of a 10-byte transfer with 16-bit words
(the spec's scenario 6). -/
def dmaSample : SpiDmaState :=
  { started_ := true, wordLength_ := 16, txDummyData_ := 0, cr1 := 0, cr2 := 0,
    spiMasterBase_ := some 1, size_ := 10,
    rxDmaChannelUniqueHandle_ := { channel_ := true },
    txDmaChannelUniqueHandle_ := { channel_ := true },
    rxDmaChannel_ := dmaChannelSample, txDmaChannel_ := dmaChannelSample,
    rxDmaRequest_ := 1, txDmaRequest_ := 1,
    rxDummyAddress := 0, txDummyAddress := 4, drAddress := 12 }

/-- A freshly constructed (never started) interrupt-based driver. -/
def chipSample0 : ChipState :=
  { pf := 16000000, cr1 := 0, cr2 := 0, started_ := false, dummyData_ := 0,
    spiMasterBase_ := none, readBuffer_ := false, writeBuffer_ := false,
    readPosition_ := 0, writePosition_ := 0, size_ := 0, rxMem := [], txMem := [] }

/-! ## Claim theorems -/

/-- C10: a `DmaChannel::UniqueHandle` not associated with any channel returns
EBADF from configureTransfer, startTransfer and stopTransfer, returns
(EBADF, 0) from getTransactionsLeft, and release is a no-op; none of these
calls touches the DMA channel. -/
theorem c10_empty_handle_noop (ch : DmaChannelState) (ma pa tr fl : Nat) :
    UniqueHandle.configureTransfer { channel_ := false } ch ma pa tr fl = (EBADF, ch) ∧
    UniqueHandle.startTransfer { channel_ := false } ch = (EBADF, ch) ∧
    UniqueHandle.stopTransfer { channel_ := false } ch = (EBADF, ch) ∧
    UniqueHandle.getTransactionsLeft { channel_ := false } ch = (EBADF, 0) ∧
    UniqueHandle.release { channel_ := false } ch = ({ channel_ := false }, ch) :=
  ⟨rfl, rfl, rfl, rfl, rfl⟩

/-- C1: in the DMA-based driver every completion or error event delivers
`bytesTransferred = originalSize - transactionsLeft × dataSize` with
`dataSize = ⌈wordLength/8⌉` (the RX completion delivers it with 0 transactions
left); in particular with size 10 and dataSize 2, completion with 0
transactions left yields 10 bytes and an error with 3 transactions left
yields 4 bytes. -/
theorem c1_dma_byte_accounting :
    (∀ (d : SpiDmaState) (tl : Nat),
      d.spiMasterBase_.isSome = true →
      tl * ((d.wordLength_ + 8 - 1) / 8) ≤ d.size_ →
      d.size_ < 2 ^ 32 →
      (d.rxTransferCompleteEvent).2.1 = some d.size_ ∧
      (d.rxTransferErrorEvent tl).2.1 =
        some (d.size_ - tl * ((d.wordLength_ + 8 - 1) / 8)) ∧
      (d.txTransferErrorEvent tl).2.1 =
        some (d.size_ - tl * ((d.wordLength_ + 8 - 1) / 8))) ∧
    ((dmaSample.rxTransferCompleteEvent).2.1 = some 10 ∧
      (dmaSample.rxTransferErrorEvent 3).2.1 = some 4 ∧
      (dmaSample.txTransferErrorEvent 3).2.1 = some 4) := by
  constructor
  · intro d tl hobs hmul hsz
    have herr : (d.eventHandler tl).2.1 =
        some (d.size_ - tl * ((d.wordLength_ + 8 - 1) / 8)) := by
      rw [(eventHandler_spec d tl).1, if_pos hobs, sub32_of_le hmul hsz]
    have hcompl : (d.eventHandler 0).2.1 = some d.size_ := by
      rw [(eventHandler_spec d 0).1, if_pos hobs, sub32_of_le (by omega) hsz]
      simp
    exact ⟨hcompl, herr, herr⟩
  · exact ⟨by decide, by decide, by decide⟩

/-- C1 witness: the general accounting law applied to the concrete 10-byte,
16-bit-word transfer of the spec's scenario 6. -/
theorem c1_dma_byte_accounting_witness :
    dmaSample.spiMasterBase_.isSome = true ∧
    3 * ((dmaSample.wordLength_ + 8 - 1) / 8) ≤ dmaSample.size_ ∧
    ((dmaSample.rxTransferCompleteEvent).2.1 = some dmaSample.size_ ∧
      (dmaSample.rxTransferErrorEvent 3).2.1 =
        some (dmaSample.size_ - 3 * ((dmaSample.wordLength_ + 8 - 1) / 8)) ∧
      (dmaSample.txTransferErrorEvent 3).2.1 =
        some (dmaSample.size_ - 3 * ((dmaSample.wordLength_ + 8 - 1) / 8))) :=
  ⟨by decide, by decide,
    c1_dma_byte_accounting.1 dmaSample 3 (by decide) (by decide) (by decide)⟩

/-- C3: every completion path of the DMA-based driver performs, in this
order: stop TX, stop RX, compute the byte count, clear the observer pointer,
invoke the callback. -/
theorem c3_dma_completion_order (d : SpiDmaState) (tl : Nat)
    (h : d.spiMasterBase_.isSome = true) :
    (d.eventHandler tl).2.2 =
      [DmaEventStep.stopTx, DmaEventStep.stopRx, DmaEventStep.computeByteCount,
        DmaEventStep.clearObserver, DmaEventStep.invokeCallback] := by
  rw [(eventHandler_spec d tl).2.1, if_pos h]

/-- C3 witness: the completion-path order on the concrete sample driver. -/
theorem c3_dma_completion_order_witness :
    dmaSample.spiMasterBase_.isSome = true ∧
    (dmaSample.eventHandler 0).2.2 =
      [DmaEventStep.stopTx, DmaEventStep.stopRx, DmaEventStep.computeByteCount,
        DmaEventStep.clearObserver, DmaEventStep.invokeCallback] :=
  ⟨by decide, c3_dma_completion_order dmaSample 0 (by decide)⟩

/-- C6 counterexample: on a never-started driver, `configure` with word
length 0 returns EINVAL, not EBADF - the word-length validation precedes the
started check (lines 68-72), so the claim fails for that argument
combination. -/
theorem c6_counterexample :
    chipSample0.isStarted = false ∧
    (chipSample0.configure SpiMode.cpol0cpha0 0 0 false 0).2 = (EINVAL, 0) ∧
    EINVAL ≠ EBADF := by decide

/-- C6 amended: for every argument combination whose word length lies within
[4..16], `configure` on a driver that has not been started fails with EBADF,
returns effective frequency 0, and leaves the driver unchanged. -/
theorem c6_configure_not_started (s : ChipState) (mode : SpiMode) (cf wl : Nat)
    (lsb : Bool) (dd : Nat) (hwl1 : minWordLength ≤ wl) (hwl2 : wl ≤ maxWordLength)
    (h : s.isStarted = false) :
    s.configure mode cf wl lsb dd = (s, EBADF, 0) := by
  unfold ChipState.configure
  have hc1 : ¬(wl < minWordLength ∨ wl > maxWordLength) := by omega
  rw [if_neg hc1, if_pos h]

/-- C6 witness: the amended claim at the concrete fresh driver with word
length 8 (the spec's scenario 1 call). -/
theorem c6_configure_not_started_witness :
    minWordLength ≤ 8 ∧ 8 ≤ maxWordLength ∧ chipSample0.isStarted = false ∧
    chipSample0.configure SpiMode.cpol0cpha0 0 8 false 0 = (chipSample0, EBADF, 0) :=
  ⟨by decide, by decide, by decide,
    c6_configure_not_started chipSample0 SpiMode.cpol0cpha0 0 8 false 0
      (by decide) (by decide) (by decide)⟩

/-- A started, idle driver on a (hypothetical) 3 GHz peripheral clock, for
the C5 counterexample. -/
def chipPf3G : ChipState := { chipSample0 with pf := 3000000000, started_ := true }

/-- C5 counterexample: on a started, idle driver with peripheral frequency
3000000000 and requested frequency 1400000000, the 32-bit sum
`peripheralFrequency + clockFrequency - 1` wraps, the computed divider is 0,
and `configure` succeeds with frequency 1500000000 - although
⌈3000000000/1400000000⌉ = 3 needs the smallest br with 2^(br+1) ≥ 3, namely
br = 1, whose frequency would be 750000000. -/
theorem c5_counterexample :
    chipPf3G.isStarted = true ∧ chipPf3G.isTransferInProgress = false ∧
    (chipPf3G.configure SpiMode.cpol0cpha0 1400000000 8 false 0).2 = (0, 1500000000) ∧
    (3000000000 + 1400000000 - 1) / 1400000000 = 3 ∧
    (3 : Nat) ≤ 2 ^ (1 + 1) ∧ ¬(3 : Nat) ≤ 2 ^ (0 + 1) ∧
    3000000000 / 2 ^ (1 + 1) = 750000000 ∧ (1500000000 : Nat) ≠ 750000000 := by
  refine ⟨rfl, rfl, rfl, by norm_num, by norm_num, by norm_num, by norm_num, by norm_num⟩

/-- C5 amended: for a started, idle driver with valid word length, positive
frequencies, and no 32-bit overflow in `peripheralFrequency + clockFrequency
- 1` (always true on real hardware, where the peripheral clock is far below
2^31): `configure` fails with EINVAL when ⌈peripheralFrequency /
clockFrequency⌉ > 256, and otherwise succeeds returning `peripheralFrequency
/ 2^(br+1)` where br is the smallest integer with 2^(br+1) ≥
⌈peripheralFrequency / clockFrequency⌉. -/
theorem c5_configure_frequency (s : ChipState) (mode : SpiMode) (cf wl : Nat)
    (lsb : Bool) (dd : Nat)
    (hwl1 : minWordLength ≤ wl) (hwl2 : wl ≤ maxWordLength)
    (hst : s.isStarted = true) (hbusy : s.isTransferInProgress = false)
    (hcf : 0 < cf) (hpf : 0 < s.pf) (hov : s.pf + cf ≤ 2 ^ 32) :
    (256 < (s.pf + cf - 1) / cf → (s.configure mode cf wl lsb dd).2 = (EINVAL, 0)) ∧
    ((s.pf + cf - 1) / cf ≤ 256 →
      ∃ br, ((s.pf + cf - 1) / cf ≤ 2 ^ (br + 1) ∧
          ∀ k, (s.pf + cf - 1) / cf ≤ 2 ^ (k + 1) → br ≤ k) ∧
        (s.configure mode cf wl lsb dd).2 = (0, s.pf / 2 ^ (br + 1))) := by
  have hc1 : ¬(wl < minWordLength ∨ wl > maxWordLength) := by omega
  have hst' : ¬(s.isStarted = false) := by rw [hst]; simp
  have hb' : ¬(s.isTransferInProgress = true) := by rw [hbusy]; simp
  have hdd : spiDivider s.pf cf = (s.pf + cf - 1) / cf := by
    have h1 : (s.pf + cf + (2 ^ 32 - 1)) % 2 ^ 32 = s.pf + cf - 1 := by omega
    unfold spiDivider
    rw [h1]
  unfold ChipState.configure
  rw [if_neg hc1, if_neg hst', if_neg hb', hdd]
  constructor
  · intro h256
    rw [if_pos h256]
  · intro h256
    rw [if_neg (by omega : ¬(s.pf + cf - 1) / cf > 256)]
    have hd1 : 1 ≤ (s.pf + cf - 1) / cf := by
      rw [Nat.one_le_div_iff hcf]
      omega
    by_cases hd2 : (s.pf + cf - 1) / cf ≤ 2
    · refine ⟨0, ⟨by omega, fun k _ => Nat.zero_le k⟩, ?_⟩
      rw [show spiBr ((s.pf + cf - 1) / cf) = 0 from if_pos hd2]
    · push_neg at hd2
      have hne : (s.pf + cf - 1) / cf - 1 ≠ 0 := by omega
      have hbr : spiBr ((s.pf + cf - 1) / cf) = Nat.log2 ((s.pf + cf - 1) / cf - 1) := by
        unfold spiBr
        rw [if_neg (by omega)]
      refine ⟨Nat.log2 ((s.pf + cf - 1) / cf - 1), ⟨?_, ?_⟩, ?_⟩
      · have h1 : (s.pf + cf - 1) / cf - 1 < 2 ^ (Nat.log2 ((s.pf + cf - 1) / cf - 1) + 1) :=
          (Nat.log2_lt hne).mp (Nat.lt_succ_self _)
        omega
      · intro k hk
        by_contra hc
        push_neg at hc
        have h2 : 2 ^ (k + 1) ≤ (s.pf + cf - 1) / cf - 1 :=
          (Nat.le_log2 hne).mp (by omega)
        omega
      · rw [hbr]

/-- A size that is zero or not a multiple of the data size fails the
DMA-based `startTransfer` with EINVAL, on any started, idle driver. -/
theorem dma_startTransfer_invalid (d : SpiDmaState) (obs : Nat) (wb rb : Option Nat)
    (size : Nat) (hst : d.started_ = true) (hbusy : d.spiMasterBase_ = none)
    (h : size = 0 ∨ size % dmaDataSize d.wordLength_ ≠ 0) :
    (d.startTransfer obs wb rb size).2 = EINVAL := by
  unfold SpiDmaState.startTransfer
  rcases h with h0 | hm
  · rw [if_pos h0]
  · have h0 : ¬size = 0 := fun hc => hm (by rw [hc]; exact Nat.zero_mod _)
    rw [if_neg h0,
      if_neg (show ¬(d.isStarted = false) by
        unfold SpiDmaState.isStarted; rw [hst]; simp),
      if_neg (show ¬(d.isTransferInProgress = true) by
        unfold SpiDmaState.isTransferInProgress; rw [hbusy]; simp),
      if_pos hm]

/-- `DmaChannel::configureTransfer` (spec-modelled) succeeds and stores the
parameters when no transfer runs, the transaction count is in [1..65535], and
both addresses meet their alignment constraints. -/
theorem dma_configure_ok (ch : DmaChannelState) (ma pa tr fl : Nat)
    (hch : ch.inProgress = false) (htr0 : tr ≠ 0) (htr : tr ≤ 65535)
    (hma : ma % min (memoryDataSizeOf fl * memoryBurstSizeOf fl) 16 = 0)
    (hpa : pa % (peripheralDataSizeOf fl * peripheralBurstSizeOf fl) = 0) :
    ch.configureTransfer ma pa tr fl =
      (0, { ch with memoryAddress_ := ma, peripheralAddress_ := pa, transactions_ := tr,
                    flags_ := fl, transactionsLeft_ := tr }) := by
  unfold DmaChannelState.configureTransfer
  rw [if_neg (by simp [hch]), if_neg htr0, if_neg (by simp [hma]), if_neg (by simp [hpa]),
    if_neg (by omega)]

/-- `UniqueHandle::configureTransfer` on an associated handle delegates to
the channel. -/
theorem dma_handle_configure_ok (h : UniqueHandle) (ch : DmaChannelState)
    (ma pa tr fl : Nat) (hh : h.channel_ = true)
    (hch : ch.inProgress = false) (htr0 : tr ≠ 0) (htr : tr ≤ 65535)
    (hma : ma % min (memoryDataSizeOf fl * memoryBurstSizeOf fl) 16 = 0)
    (hpa : pa % (peripheralDataSizeOf fl * peripheralBurstSizeOf fl) = 0) :
    h.configureTransfer ch ma pa tr fl =
      (0, { ch with memoryAddress_ := ma, peripheralAddress_ := pa, transactions_ := tr,
                    flags_ := fl, transactionsLeft_ := tr }) := by
  unfold UniqueHandle.configureTransfer
  rw [if_neg (by simp [hh])]
  exact dma_configure_ok ch ma pa tr fl hch htr0 htr hma hpa

/-- `UniqueHandle::startTransfer` on an associated handle with an idle
channel enables the channel and returns 0. -/
theorem dma_handle_start_ok (h : UniqueHandle) (ch : DmaChannelState)
    (hh : h.channel_ = true) (hch : ch.inProgress = false) :
    h.startTransfer ch = (0, { ch with inProgress := true }) := by
  unfold UniqueHandle.startTransfer DmaChannelState.startTransfer
  rw [if_neg (by simp [hh]), if_neg (by simp [hch])]

/-- A positive multiple of the data size with at most 65535 transactions and
data-size-aligned addresses succeeds the DMA-based `startTransfer`, on any
started, idle driver with both channels reserved and idle. -/
theorem dma_startTransfer_ok (d : SpiDmaState) (obs : Nat) (wb rb : Option Nat)
    (size : Nat) (hst : d.started_ = true) (hbusy : d.spiMasterBase_ = none)
    (hrh : d.rxDmaChannelUniqueHandle_.channel_ = true)
    (hth : d.txDmaChannelUniqueHandle_.channel_ = true)
    (hrch : d.rxDmaChannel_.inProgress = false)
    (htch : d.txDmaChannel_.inProgress = false)
    (hds : dmaDataSize d.wordLength_ = 1 ∨ dmaDataSize d.wordLength_ = 2)
    (hsz0 : size ≠ 0) (hszm : size % dmaDataSize d.wordLength_ = 0)
    (htr : size / dmaDataSize d.wordLength_ ≤ 65535)
    (hma : (rb.getD d.rxDummyAddress) % dmaDataSize d.wordLength_ = 0)
    (hma2 : (wb.getD d.txDummyAddress) % dmaDataSize d.wordLength_ = 0)
    (hpa : d.drAddress % dmaDataSize d.wordLength_ = 0) :
    (d.startTransfer obs wb rb size).2 = 0 := by
  have hdpos : 0 < dmaDataSize d.wordLength_ := by rcases hds with h1 | h1 <;> omega
  have htr0 : size / dmaDataSize d.wordLength_ ≠ 0 :=
    (Nat.div_ne_zero_iff (by omega)).mpr
      (Nat.le_of_dvd (Nat.pos_of_ne_zero hsz0) (Nat.dvd_of_mod_eq_zero hszm))
  have g2 : ¬(d.isStarted = false) := by simp [SpiDmaState.isStarted, hst]
  have g3 : ¬(d.isTransferInProgress = true) := by simp [SpiDmaState.isTransferInProgress, hbusy]
  have g4 : ¬(size % dmaDataSize d.wordLength_ ≠ 0) := by simp [hszm]
  unfold SpiDmaState.startTransfer
  rw [if_neg hsz0, if_neg g2, if_neg g3, if_neg g4]
  have hle : dmaDataSize d.wordLength_ ≤ size :=
    Nat.le_of_dvd (Nat.pos_of_ne_zero hsz0) (Nat.dvd_of_mod_eq_zero hszm)
  rcases hds with h1 | h1
  · rw [h1] at hma hma2 hpa htr hle ⊢
    have ha : ¬65535 < size := by omega
    rcases rb with _ | ra <;> rcases wb with _ | wa <;>
      simp [UniqueHandle.configureTransfer, DmaChannelState.configureTransfer,
        UniqueHandle.startTransfer, DmaChannelState.startTransfer, hrh, hth, hrch, htch,
        hsz0, ha, Nat.mod_one, memoryDataSizeOf, peripheralDataSizeOf,
        memoryBurstSizeOf, peripheralBurstSizeOf, burstOf, peripheralFixed, dataSize1,
        dataSize2, peripheralDataSize1, peripheralDataSize2, memoryDataSize1,
        memoryDataSize2, transferCompleteInterruptEnable, transferCompleteInterruptDisable,
        peripheralToMemory, memoryToPeripheral, memoryIncrement, memoryFixed,
        veryHighPriority, lowPriority,
        (show (24 &&& 3 : Nat) = 0 from rfl), (show (96 &&& 3 : Nat) = 0 from rfl),
        (show (0 &&& 3 : Nat) = 0 from rfl), (show (1 &&& 3 : Nat) = 1 from rfl),
        (show (5 &&& 3 : Nat) = 1 from rfl)]
  · rw [h1] at hma hma2 hpa htr hle ⊢
    have ha : ¬65535 < size / 2 := by omega
    have hb : ¬size / 2 = 0 := by omega
    rcases rb with _ | ra <;> rcases wb with _ | wa <;>
      simp only [Option.getD_none, Option.getD_some] at hma hma2 <;>
      simp [UniqueHandle.configureTransfer, DmaChannelState.configureTransfer,
        UniqueHandle.startTransfer, DmaChannelState.startTransfer, hrh, hth, hrch, htch,
        ha, hb, hma, hma2, hpa, Nat.mod_one, memoryDataSizeOf, peripheralDataSizeOf,
        memoryBurstSizeOf, peripheralBurstSizeOf, burstOf, peripheralFixed, dataSize1,
        dataSize2, peripheralDataSize1, peripheralDataSize2, memoryDataSize1,
        memoryDataSize2, transferCompleteInterruptEnable, transferCompleteInterruptDisable,
        peripheralToMemory, memoryToPeripheral, memoryIncrement, memoryFixed,
        veryHighPriority, lowPriority,
        (show (25 &&& 3 : Nat) = 1 from rfl), (show (101 &&& 3 : Nat) = 1 from rfl),
        (show (0 &&& 3 : Nat) = 0 from rfl), (show (1 &&& 3 : Nat) = 1 from rfl),
        (show (5 &&& 3 : Nat) = 1 from rfl)]

/-- A started, idle DMA-based driver with both channels reserved and idle
and 8-bit words. -/
def dmaIdle : SpiDmaState :=
  { started_ := true, wordLength_ := 8, txDummyData_ := 0, cr1 := 0, cr2 := 0,
    spiMasterBase_ := none, size_ := 0,
    rxDmaChannelUniqueHandle_ := { channel_ := true },
    txDmaChannelUniqueHandle_ := { channel_ := true },
    rxDmaChannel_ := { dmaChannelSample with inProgress := false },
    txDmaChannel_ := { dmaChannelSample with inProgress := false },
    rxDmaRequest_ := 1, txDmaRequest_ := 1,
    rxDummyAddress := 0, txDummyAddress := 4, drAddress := 12 }

/-- A started, idle interrupt-based driver configured for 12-bit words. -/
def chipW12 : ChipState :=
  { chipSample0 with started_ := true, cr2 := (12 - 1) <<< SPI_CR2_DS_Pos }

/-- C7 counterexample: on a started, idle DMA-based driver with 8-bit words,
`startTransfer` with size 65536 - a positive multiple of the data size 1 -
does not succeed: the transaction count exceeds the 16-bit DMA counter and
the call returns ENOTSUP. -/
theorem c7_counterexample :
    dmaIdle.isStarted = true ∧ dmaIdle.isTransferInProgress = false ∧
    65536 % dmaDataSize dmaIdle.wordLength_ = 0 ∧ (65536 : Nat) ≠ 0 ∧
    (dmaIdle.startTransfer 1 none none 65536).2 = ENOTSUP ∧
    ENOTSUP ≠ 0 ∧ ENOTSUP ≠ EINVAL := by
  refine ⟨rfl, rfl, rfl, by omega, rfl, by decide, by decide⟩

/-- C7 amended: on a started, idle driver, `startTransfer` returns EINVAL
iff size is zero or not a multiple of ⌈wordLength/8⌉ and succeeds otherwise -
unconditionally for the interrupt-based variant (e.g. size 1 with word
length 12 fails), while for the DMA-based variant success additionally
requires at most 65535 transactions and data-size-aligned buffer and data
register addresses (otherwise the DMA channel configuration fails). -/
theorem c7_startTransfer_size_validation :
    (∀ (s : ChipState) (obs : Nat) (wb rb : Bool) (size : Nat),
      s.isStarted = true → s.isTransferInProgress = false →
      (s.startTransfer obs wb rb size).2 =
        (if size ≠ 0 ∧ size % dataSizeOfCr2 s.cr2 = 0 then 0 else EINVAL)) ∧
    ((chipW12.startTransfer 1 false false 1).2 = EINVAL) ∧
    (∀ (d : SpiDmaState) (obs : Nat) (wb rb : Option Nat) (size : Nat),
      d.started_ = true → d.spiMasterBase_ = none →
      ((size = 0 ∨ size % dmaDataSize d.wordLength_ ≠ 0 →
          (d.startTransfer obs wb rb size).2 = EINVAL) ∧
        (d.rxDmaChannelUniqueHandle_.channel_ = true →
          d.txDmaChannelUniqueHandle_.channel_ = true →
          d.rxDmaChannel_.inProgress = false → d.txDmaChannel_.inProgress = false →
          (dmaDataSize d.wordLength_ = 1 ∨ dmaDataSize d.wordLength_ = 2) →
          size ≠ 0 → size % dmaDataSize d.wordLength_ = 0 →
          size / dmaDataSize d.wordLength_ ≤ 65535 →
          (rb.getD d.rxDummyAddress) % dmaDataSize d.wordLength_ = 0 →
          (wb.getD d.txDummyAddress) % dmaDataSize d.wordLength_ = 0 →
          d.drAddress % dmaDataSize d.wordLength_ = 0 →
          (d.startTransfer obs wb rb size).2 = 0))) := by
  refine ⟨?_, by decide, ?_⟩
  · intro s obs wb rb size hst hbusy
    unfold ChipState.startTransfer
    by_cases h0 : size = 0
    · rw [if_pos h0, if_neg (by simp [h0])]
    · rw [if_neg h0, if_neg (by simp [hst]), if_neg (by simp [hbusy])]
      by_cases hm : size % ((getWordLength s.cr2 + 8 - 1) / 8) = 0
      · rw [if_neg (by simpa using hm), if_pos ⟨h0, by simpa [dataSizeOfCr2] using hm⟩]
      · rw [if_pos (by simpa using hm), if_neg (fun hc => hm (by simpa [dataSizeOfCr2] using hc.2))]
  · intro d obs wb rb size hst hbusy
    constructor
    · exact fun h => dma_startTransfer_invalid d obs wb rb size hst hbusy h
    · intro hrh hth hrch htch hds hsz0 hszm htr hma hma2 hpa
      exact dma_startTransfer_ok d obs wb rb size hst hbusy hrh hth hrch htch hds
        hsz0 hszm htr hma hma2 hpa

/-- C7 witness: size 2 on the 12-bit interrupt driver succeeds per the
validation formula, and size 4 on the idle DMA driver succeeds. -/
theorem c7_startTransfer_size_validation_witness :
    ((chipW12.startTransfer 1 false false 2).2 =
      (if (2 : Nat) ≠ 0 ∧ 2 % dataSizeOfCr2 chipW12.cr2 = 0 then 0 else EINVAL)) ∧
    (dmaIdle.startTransfer 1 none none 4).2 = 0 :=
  ⟨c7_startTransfer_size_validation.1 chipW12 1 false false 2 (by decide) (by decide),
    (c7_startTransfer_size_validation.2.2 dmaIdle 1 none none 4 (by decide)
        (by decide)).2 (by decide) (by decide) (by decide) (by decide) (by decide)
      (by decide) (by decide) (by decide) (by decide) (by decide) (by decide)⟩

/-- C8: `SpiMasterLowLevelDmaBased::start` reserves RX first, then TX.  If
the TX reservation fails, start returns that error, the RX reservation is
rolled back (handle empty, channel free) and the driver stays stopped; if
both succeed the driver is started holding both reservations; and if already
the RX reservation fails, the TX channel is never touched. -/
theorem c8_dma_start_reservation :
    (∀ d : SpiDmaState, d.started_ = false →
      d.rxDmaChannelUniqueHandle_.channel_ = false →
      d.txDmaChannelUniqueHandle_.channel_ = false →
      d.rxDmaChannel_.reserved_ = false → d.rxDmaRequest_ ≤ 15 →
      (d.txDmaChannel_.reserved_ = true ∨ 15 < d.txDmaRequest_) →
      ((d.start).2 ≠ 0 ∧ (d.start).1.started_ = false ∧
        (d.start).1.rxDmaChannel_.reserved_ = false ∧
        (d.start).1.rxDmaChannelUniqueHandle_.channel_ = false)) ∧
    (∀ d : SpiDmaState, d.started_ = false →
      d.rxDmaChannelUniqueHandle_.channel_ = false →
      d.txDmaChannelUniqueHandle_.channel_ = false →
      d.rxDmaChannel_.reserved_ = false → d.rxDmaRequest_ ≤ 15 →
      d.txDmaChannel_.reserved_ = false → d.txDmaRequest_ ≤ 15 →
      ((d.start).2 = 0 ∧ (d.start).1.started_ = true ∧
        (d.start).1.rxDmaChannel_.reserved_ = true ∧
        (d.start).1.txDmaChannel_.reserved_ = true ∧
        (d.start).1.rxDmaChannelUniqueHandle_.channel_ = true ∧
        (d.start).1.txDmaChannelUniqueHandle_.channel_ = true)) ∧
    (∀ d : SpiDmaState, d.started_ = false →
      d.rxDmaChannelUniqueHandle_.channel_ = false →
      d.rxDmaChannel_.reserved_ = true →
      ((d.start).2 = EBUSY ∧ (d.start).1.started_ = false ∧
        (d.start).1.txDmaChannel_ = d.txDmaChannel_ ∧
        (d.start).1.txDmaChannelUniqueHandle_ = d.txDmaChannelUniqueHandle_)) := by
  refine ⟨?_, ?_, ?_⟩
  · intro d hst hrh hth hrch hrr htx
    have hrr15 : ¬d.rxDmaRequest_ > 15 := by omega
    rcases htx with h | h
    · simp [SpiDmaState.start, SpiDmaState.isStarted, UniqueHandle.reserve,
        UniqueHandle.release, DmaChannelState.reserve, DmaChannelState.release,
        hst, hrh, hth, hrch, hrr15, h, EBUSY, EINVAL]
    · rcases hres : d.txDmaChannel_.reserved_ <;>
        simp [SpiDmaState.start, SpiDmaState.isStarted, UniqueHandle.reserve,
          UniqueHandle.release, DmaChannelState.reserve, DmaChannelState.release,
          hst, hrh, hth, hrch, hrr15, h, hres, EBUSY, EINVAL]
  · intro d hst hrh hth hrch hrr htch htr
    have hrr15 : ¬d.rxDmaRequest_ > 15 := by omega
    have htr15 : ¬d.txDmaRequest_ > 15 := by omega
    simp [SpiDmaState.start, SpiDmaState.isStarted, UniqueHandle.reserve,
      UniqueHandle.release, DmaChannelState.reserve, DmaChannelState.release,
      hst, hrh, hth, hrch, hrr15, htch, htr15]
  · intro d hst hrh hrch
    simp [SpiDmaState.start, SpiDmaState.isStarted, UniqueHandle.reserve,
      UniqueHandle.release, DmaChannelState.reserve, DmaChannelState.release,
      hst, hrh, hrch, EBUSY]

/-- An overrun-branch callback only arises from the completion block. -/
theorem ovrBranch_event (s : ChipState) (sr : Nat) (b : Nat)
    (h : (s.ovrBranch sr).2 = some b) :
    ∃ t : ChipState, s.ovrBranch sr = t.finishTransfer ∧ t.started_ = s.started_ := by
  unfold ChipState.ovrBranch at h ⊢
  by_cases hbsy : sr &&& SPI_SR_BSY = 0
  · rw [if_pos hbsy]
    exact ⟨_, rfl, rfl⟩
  · rw [if_neg hbsy] at h
    exact absurd h (by simp)

/-- An RXNE-branch callback only arises from the completion block, applied to
the post-store state. -/
theorem rxneBranch_event (s : ChipState) (dr b : Nat)
    (h : (s.rxneBranch dr).2 = some b) :
    ∃ t : ChipState, s.rxneBranch dr = t.finishTransfer ∧ t.started_ = s.started_ := by
  unfold ChipState.rxneBranch at h ⊢
  by_cases hfin : (s.rxStore (if getWordLength s.cr2 ≤ 8 then dr % 2 ^ 8
      else dr % 2 ^ 16)).readPosition_ = (s.rxStore (if getWordLength s.cr2 ≤ 8 then dr % 2 ^ 8
      else dr % 2 ^ 16)).size_
  · rw [if_pos hfin]
    exact ⟨_, rfl, (rxStore_facts s _).2.2.2.1⟩
  · rw [if_neg hfin] at h
    exact absurd h (by simp)

/-- The TXE branch never fires a callback. -/
theorem txeBranch_no_event (s : ChipState) : (s.txeBranch).2 = none := rfl

/-- Every callback of `interruptHandler` is produced by the completion block
`finishTransfer`, applied to an intermediate state with the same started
flag. -/
theorem interruptHandler_event_finish (s : ChipState) (irq : IrqInput) (b : Nat)
    (h : (s.interruptHandler irq).2 = some b) :
    ∃ t : ChipState, s.interruptHandler irq = t.finishTransfer ∧
      t.started_ = s.started_ := by
  simp only [ChipState.interruptHandler] at h ⊢
  split_ifs at h ⊢ with c1 c2 c3
  · exact ovrBranch_event s irq.sr b h
  · exact rxneBranch_event s irq.dr b h
  · rw [txeBranch_no_event] at h
    exact absurd h (by simp)

/-- C2: in both driver variants, at the instant a completion callback is
invoked all internal transfer state is cleared and the observer pointer is
null, so a new `startTransfer` with valid parameters issued from within the
callback succeeds.  (The state returned by the handlers is by construction
the state at the instant of the callback, the callback being the last
statement of every completion path.) -/
theorem c2_state_cleared_before_callback :
    (∀ (s : ChipState) (irq : IrqInput) (b : Nat),
      s.started_ = true → (s.interruptHandler irq).2 = some b →
      ((s.interruptHandler irq).1.spiMasterBase_ = none ∧
        (s.interruptHandler irq).1.size_ = 0 ∧
        (s.interruptHandler irq).1.readPosition_ = 0 ∧
        (s.interruptHandler irq).1.writePosition_ = 0 ∧
        (s.interruptHandler irq).1.readBuffer_ = false ∧
        (s.interruptHandler irq).1.writeBuffer_ = false ∧
        ∀ (obs : Nat) (wb rb : Bool) (size : Nat), size ≠ 0 →
          size % dataSizeOfCr2 (s.interruptHandler irq).1.cr2 = 0 →
          ((s.interruptHandler irq).1.startTransfer obs wb rb size).2 = 0)) ∧
    (∀ (d : SpiDmaState) (tl b : Nat),
      d.started_ = true → (d.eventHandler tl).2.1 = some b →
      ((d.eventHandler tl).1.spiMasterBase_ = none ∧
        (d.eventHandler tl).1.size_ = 0 ∧
        ∀ (obs : Nat) (wb rb : Option Nat) (size : Nat),
          d.rxDmaChannelUniqueHandle_.channel_ = true →
          d.txDmaChannelUniqueHandle_.channel_ = true →
          (dmaDataSize d.wordLength_ = 1 ∨ dmaDataSize d.wordLength_ = 2) →
          size ≠ 0 → size % dmaDataSize d.wordLength_ = 0 →
          size / dmaDataSize d.wordLength_ ≤ 65535 →
          (rb.getD d.rxDummyAddress) % dmaDataSize d.wordLength_ = 0 →
          (wb.getD d.txDummyAddress) % dmaDataSize d.wordLength_ = 0 →
          d.drAddress % dmaDataSize d.wordLength_ = 0 →
          ((d.eventHandler tl).1.startTransfer obs wb rb size).2 = 0)) := by
  constructor
  · intro s irq b hst h
    obtain ⟨t, ht, htst⟩ := interruptHandler_event_finish s irq b h
    obtain ⟨-, hidle, hst1, hsz, hrp, hwp, hrb, hwb, -, -⟩ := finishTransfer_spec t
    rw [ht]
    refine ⟨hidle.1, hsz, hrp, hwp, hrb, hwb, ?_⟩
    intro obs wb rb size hsz0 hszm
    unfold ChipState.startTransfer
    rw [if_neg hsz0,
      if_neg (show ¬((t.finishTransfer).1.isStarted = false) by
        unfold ChipState.isStarted
        rw [hst1, htst, hst]
        simp),
      if_neg (show ¬((t.finishTransfer).1.isTransferInProgress = true) by
        unfold ChipState.isTransferInProgress
        rw [hidle.1]
        simp),
      if_neg (by simpa [dataSizeOfCr2] using hszm)]
  · intro d tl b hst h
    rw [(eventHandler_spec d tl).2.2]
    refine ⟨rfl, rfl, ?_⟩
    intro obs wb rb size hrh hth hds hsz0 hszm htr hma hma2 hpa
    exact dma_startTransfer_ok _ obs wb rb size hst rfl hrh hth
      (by simp [UniqueHandle.stopTransfer, DmaChannelState.stopTransfer, hrh])
      (by simp [UniqueHandle.stopTransfer, DmaChannelState.stopTransfer, hth])
      hds hsz0 hszm htr hma hma2 hpa

/-- A started interrupt-based driver one byte short of completing a 1-byte
transfer with no read buffer (8-bit words, all transfer interrupts on). -/
def chipBusy1 : ChipState :=
  { chipSample0 with started_ := true, cr2 := 0x17E0, spiMasterBase_ := some 1, size_ := 1 }

/-- The RXNE interrupt delivering the byte 0x9f. -/
def irq9f : IrqInput := { sr := SPI_SR_RXNE, dr := 0x9f }

/-- C2 witness: the cleared-before-callback property at the concrete 1-byte
transfer completion and at the DMA sample driver's completion, including a
successful re-issued `startTransfer` in both variants. -/
theorem c2_state_cleared_before_callback_witness :
    (chipBusy1.started_ = true ∧ (chipBusy1.interruptHandler irq9f).2 = some 1 ∧
      ((chipBusy1.interruptHandler irq9f).1.spiMasterBase_ = none ∧
        (chipBusy1.interruptHandler irq9f).1.size_ = 0 ∧
        ((chipBusy1.interruptHandler irq9f).1.startTransfer 2 false false 1).2 = 0)) ∧
    (dmaSample.started_ = true ∧ (dmaSample.eventHandler 0).2.1 = some 10 ∧
      ((dmaSample.eventHandler 0).1.spiMasterBase_ = none ∧
        (dmaSample.eventHandler 0).1.size_ = 0 ∧
        ((dmaSample.eventHandler 0).1.startTransfer 2 none none 4).2 = 0)) := by
  have h1 := c2_state_cleared_before_callback.1 chipBusy1 irq9f 1 (by decide) (by decide)
  have h2 := c2_state_cleared_before_callback.2 dmaSample 0 10 (by decide) (by decide)
  exact ⟨⟨by decide, by decide,
      h1.1, h1.2.1, h1.2.2.2.2.2.2 2 false false 1 (by decide) (by decide)⟩,
    ⟨by decide, by decide,
      h2.1, h2.2.1, h2.2.2 2 none none 4 (by decide) (by decide) (by decide) (by decide)
        (by decide) (by decide) (by decide) (by decide) (by decide)⟩⟩

/-- C4: after a successful `startTransfer`, the interrupt-based driver
delivers no callback while it remains busy, and exactly one callback - with
at most `size` bytes - once it has returned to idle, over every interrupt
sequence; the DMA-based driver's terminal event delivers exactly one
callback with at most `size_` bytes, leaving the driver idle. -/
theorem c4_exactly_one_completion :
    (∀ (s : ChipState) (obs : Nat) (wb rb : Bool) (size : Nat) (irqs : List IrqInput),
      (s.startTransfer obs wb rb size).2 = 0 →
      ((((s.startTransfer obs wb rb size).1.runIrqs irqs).1.isTransferInProgress = false →
          ∃ b, ((s.startTransfer obs wb rb size).1.runIrqs irqs).2 = [b] ∧ b ≤ size) ∧
        (((s.startTransfer obs wb rb size).1.runIrqs irqs).1.isTransferInProgress = true →
          ((s.startTransfer obs wb rb size).1.runIrqs irqs).2 = []))) ∧
    (∀ (d : SpiDmaState) (tl : Nat),
      d.isTransferInProgress = true →
      tl * ((d.wordLength_ + 8 - 1) / 8) ≤ d.size_ → d.size_ < 2 ^ 32 →
      ∃ b, (d.eventHandler tl).2.1 = some b ∧ b ≤ d.size_ ∧
        (d.eventHandler tl).1.isTransferInProgress = false) := by
  constructor
  · intro s obs wb rb size irqs h
    obtain ⟨hbusy, hsz, -⟩ := startTransfer_ok s obs wb rb size h
    rcases runIrqs_busy irqs _ hbusy with ⟨hb2, hnil, -⟩ | ⟨b, hevs, hle, hid⟩
    · refine ⟨?_, fun _ => hnil⟩
      intro hfalse
      exact absurd hfalse (by simp [ChipState.isTransferInProgress, hb2.1])
    · refine ⟨fun _ => ⟨b, hevs, by rw [← hsz]; exact hle⟩, ?_⟩
      intro htrue
      exact absurd htrue (by simp [ChipState.isTransferInProgress, hid.1])
  · intro d tl hbusy hmul hsz
    have hobs : d.spiMasterBase_.isSome = true := hbusy
    refine ⟨sub32 d.size_ (tl * ((d.wordLength_ + 8 - 1) / 8)), ?_, ?_, ?_⟩
    · rw [(eventHandler_spec d tl).1, if_pos hobs]
    · rw [sub32_of_le hmul hsz]
      omega
    · rw [show (d.eventHandler tl).1.isTransferInProgress
          = (d.eventHandler tl).1.spiMasterBase_.isSome from rfl,
        (eventHandler_spec d tl).2.2]
      rfl

/-- C4 witness: the quiescent run (no interrupts yet: still busy, no events)
on the 12-bit driver after a successful 2-byte `startTransfer`, and the
DMA sample completion with 3 transactions left. -/
theorem c4_exactly_one_completion_witness :
    ((chipW12.startTransfer 1 false false 2).2 = 0 ∧
      ((((chipW12.startTransfer 1 false false 2).1.runIrqs []).1.isTransferInProgress = true →
        (((chipW12.startTransfer 1 false false 2).1.runIrqs []).2 = [])))) ∧
    (∃ b, (dmaSample.eventHandler 3).2.1 = some b ∧ b ≤ dmaSample.size_ ∧
      (dmaSample.eventHandler 3).1.isTransferInProgress = false) :=
  ⟨⟨by decide,
      (c4_exactly_one_completion.1 chipW12 1 false false 2 [] (by decide)).2⟩,
    c4_exactly_one_completion.2 dmaSample 3 (by decide) (by decide) (by decide)⟩

/-- The completion block preserves the caller's read-buffer memory. -/
theorem finishTransfer_rxMem (t : ChipState) : (t.finishTransfer).1.rxMem = t.rxMem :=
  (finishTransfer_spec t).2.2.2.2.2.2.2.2.1

/-- With an observer registered, the completion block fires the callback with
the current read position as byte count. -/
theorem finishTransfer_event_of_isSome (t : ChipState)
    (h : t.spiMasterBase_.isSome = true) :
    (t.finishTransfer).2 = some t.readPosition_ := by
  rw [(finishTransfer_spec t).1, if_pos h]

/-- Initial caller memory and driver for the 16-bit five-halfword duplex
scenario: tx holds [0xf2a0, 0x74ba, 0x5b22, 0xa49c, 0xa205] as little-endian
bytes, rx is 10 zero bytes. -/
def c9Init : ChipState :=
  { pf := 8, cr1 := 0, cr2 := 0, started_ := false, dummyData_ := 0,
    spiMasterBase_ := none, readBuffer_ := false, writeBuffer_ := false,
    readPosition_ := 0, writePosition_ := 0, size_ := 0,
    rxMem := List.replicate 10 0,
    txMem := [0xa0, 0xf2, 0xba, 0x74, 0x22, 0x5b, 0x9c, 0xa4, 0x05, 0xa2] }

/-- A TXE interrupt. -/
def txeIrq : IrqInput := { sr := SPI_SR_TXE, dr := 0 }

/-- An RXNE interrupt delivering the halfword `d`. -/
def rxneIrq (d : Nat) : IrqInput := { sr := SPI_SR_RXNE, dr := d }

/-- The ten interrupts of the duplex scenario: each halfword is first pushed
(TXE), then the received halfword arrives (RXNE). -/
def c9Irqs : List IrqInput :=
  [txeIrq, rxneIrq 0x4939, txeIrq, rxneIrq 0x376a, txeIrq, rxneIrq 0x29fa,
    txeIrq, rxneIrq 0x6c4e, txeIrq, rxneIrq 0x7a87]

/-- C9: with 16-bit words, every RXNE interrupt on a driver with a read
buffer stores the received halfword low byte first, then high byte, and
advances the read position by 2 (or completes, delivering exactly `size_`
bytes, when this fills the transfer); concretely, the five-halfword duplex
run of the spec's scenario 3 ends after the fifth RXNE interrupt with one
callback carrying 10 bytes and the read buffer holding the five received
halfwords. -/
theorem c9_sixteen_bit_duplex :
    (∀ (s : ChipState) (irq : IrqInput),
      ¬(irq.sr &&& SPI_SR_OVR ≠ 0 ∧ s.cr2 &&& SPI_CR2_ERRIE ≠ 0) →
      irq.sr &&& SPI_SR_RXNE ≠ 0 → s.cr2 &&& SPI_CR2_RXNEIE ≠ 0 →
      getWordLength s.cr2 = 16 → s.readBuffer_ = true →
      s.spiMasterBase_.isSome = true →
      ((s.interruptHandler irq).1.rxMem =
          listSet (listSet s.rxMem s.readPosition_ (irq.dr % 2 ^ 16 % 2 ^ 8))
            (s.readPosition_ + 1) ((irq.dr % 2 ^ 16) >>> 8) ∧
        ((s.interruptHandler irq).1.readPosition_ = s.readPosition_ + 2 ∨
          ((s.interruptHandler irq).2 = some s.size_ ∧
            s.readPosition_ + 2 = s.size_)))) ∧
    ((((c9Init.start).1.configure SpiMode.cpol0cpha0 8 16 false 0).1.startTransfer
        1 true true 10).2 = 0 ∧
      (((((c9Init.start).1.configure SpiMode.cpol0cpha0 8 16 false 0).1.startTransfer
          1 true true 10).1.runIrqs c9Irqs).2 = [10] ∧
        ((((c9Init.start).1.configure SpiMode.cpol0cpha0 8 16 false 0).1.startTransfer
            1 true true 10).1.runIrqs c9Irqs).1.rxMem =
          [0x39, 0x49, 0x6a, 0x37, 0xfa, 0x29, 0x4e, 0x6c, 0x87, 0x7a])) := by
  constructor
  · intro s irq hovr hrxne henab hwl hrb hobs
    unfold ChipState.interruptHandler
    rw [if_neg hovr, if_pos ⟨hrxne, henab⟩]
    unfold ChipState.rxneBranch ChipState.rxStore
    simp only [hwl, hrb, (show ((16 : Nat) ≤ 8) = False by decide),
      (show ((16 : Nat) > 8) = True by decide), if_true, if_false, ite_true, ite_false]
    by_cases hfin : s.readPosition_ + 2 = s.size_
    · rw [if_pos (show _ = _ from hfin)]
      refine ⟨finishTransfer_rxMem _, Or.inr ⟨?_, hfin⟩⟩
      rw [finishTransfer_event_of_isSome]
      · exact congrArg some hfin
      · exact hobs
    · rw [if_neg (show ¬(_ = _) from hfin)]
      exact ⟨rfl, Or.inl rfl⟩
  · refine ⟨by decide, by decide, by decide⟩

/-- A started interrupt-based driver in the middle of a 10-byte, 16-bit-word
transfer with a read buffer, at read position 0. -/
def chipBusy16 : ChipState :=
  { chipSample0 with
      started_ := true, cr2 := 0x0FE0, spiMasterBase_ := some 1,
      size_ := 10, readBuffer_ := true, rxMem := List.replicate 10 0 }

/-- C9 witness: the RXNE store property applied to the concrete 16-bit busy
driver receiving 0x4939. -/
theorem c9_sixteen_bit_duplex_witness :
    (chipBusy16.interruptHandler (rxneIrq 0x4939)).1.rxMem =
      listSet (listSet chipBusy16.rxMem chipBusy16.readPosition_
        (0x4939 % 2 ^ 16 % 2 ^ 8)) (chipBusy16.readPosition_ + 1)
        ((0x4939 % 2 ^ 16) >>> 8) ∧
    ((chipBusy16.interruptHandler (rxneIrq 0x4939)).1.readPosition_ =
        chipBusy16.readPosition_ + 2 ∨
      ((chipBusy16.interruptHandler (rxneIrq 0x4939)).2 = some chipBusy16.size_ ∧
        chipBusy16.readPosition_ + 2 = chipBusy16.size_)) :=
  c9_sixteen_bit_duplex.1 chipBusy16 (rxneIrq 0x4939) (by decide) (by decide)
    (by decide) (by decide) (by decide) (by decide)

/-- A stopped DMA-based driver with free channels and empty handles, whose
TX request id 16 is invalid. -/
def dmaStopped1 : SpiDmaState :=
  { dmaIdle with
      started_ := false,
      rxDmaChannelUniqueHandle_ := { channel_ := false },
      txDmaChannelUniqueHandle_ := { channel_ := false },
      rxDmaChannel_ := { dmaChannelSample with inProgress := false, reserved_ := false },
      txDmaChannel_ := { dmaChannelSample with inProgress := false, reserved_ := false },
      txDmaRequest_ := 16 }

/-- As `dmaStopped1` but with both request ids valid. -/
def dmaStopped2 : SpiDmaState := { dmaStopped1 with txDmaRequest_ := 1 }

/-- As `dmaStopped1` but with the RX channel already reserved by someone. -/
def dmaStopped3 : SpiDmaState :=
  { dmaStopped2 with
      rxDmaChannel_ := { dmaChannelSample with inProgress := false, reserved_ := true } }

/-- C8 witness: the three cases of the reservation theorem at the concrete
stopped drivers. -/
theorem c8_dma_start_reservation_witness :
    ((dmaStopped1.start).2 ≠ 0 ∧ (dmaStopped1.start).1.started_ = false ∧
      (dmaStopped1.start).1.rxDmaChannel_.reserved_ = false ∧
      (dmaStopped1.start).1.rxDmaChannelUniqueHandle_.channel_ = false) ∧
    ((dmaStopped2.start).2 = 0 ∧ (dmaStopped2.start).1.started_ = true ∧
      (dmaStopped2.start).1.rxDmaChannel_.reserved_ = true ∧
      (dmaStopped2.start).1.txDmaChannel_.reserved_ = true ∧
      (dmaStopped2.start).1.rxDmaChannelUniqueHandle_.channel_ = true ∧
      (dmaStopped2.start).1.txDmaChannelUniqueHandle_.channel_ = true) ∧
    ((dmaStopped3.start).2 = EBUSY ∧ (dmaStopped3.start).1.started_ = false ∧
      (dmaStopped3.start).1.txDmaChannel_ = dmaStopped3.txDmaChannel_ ∧
      (dmaStopped3.start).1.txDmaChannelUniqueHandle_ = dmaStopped3.txDmaChannelUniqueHandle_) :=
  ⟨c8_dma_start_reservation.1 dmaStopped1 (by decide) (by decide) (by decide) (by decide)
      (by decide) (by decide),
    c8_dma_start_reservation.2.1 dmaStopped2 (by decide) (by decide) (by decide) (by decide)
      (by decide) (by decide) (by decide),
    c8_dma_start_reservation.2.2 dmaStopped3 (by decide) (by decide) (by decide)⟩

/-- C5 witness: the amended claim at a 16 MHz peripheral, requesting 1 MHz:
the divider is 16, the smallest admissible br is 3, and the effective
frequency is 1 MHz. -/
theorem c5_configure_frequency_witness :
    ((16000000 + 1000000 - 1) / 1000000 ≤ 256 ∧
      ∃ br, ((16000000 + 1000000 - 1) / 1000000 ≤ 2 ^ (br + 1) ∧
          ∀ k, (16000000 + 1000000 - 1) / 1000000 ≤ 2 ^ (k + 1) → br ≤ k) ∧
        (({ chipSample0 with started_ := true } : ChipState).configure
          SpiMode.cpol0cpha0 1000000 8 false 0).2 =
          (0, 16000000 / 2 ^ (br + 1))) :=
  ⟨by decide,
    (c5_configure_frequency { chipSample0 with started_ := true } SpiMode.cpol0cpha0
      1000000 8 false 0 (by decide) (by decide) (by decide) (by decide)
      (by decide) (by decide) (by decide)).2 (by decide)⟩

end Distortos
